import Mathlib

/-!
# Classeviva wrapper: session lifecycle and account collection

A shallow embedding of `src/lib/Utente.js`, `src/lib/ListaUtenti.js`,
`src/lib/eccezioni.js`, `src/lib/variabili.js` and `src/lib/collegamenti.js`.

Conventions of the embedding.

* JavaScript values that can sit in a JSON body are `JsVal`; truthiness is `JsVal.truthy`.
* A `Date` object is its time value in milliseconds, `none` standing for an Invalid Date
  (time value `NaN`).  A property holding `null` or a `Date` is an `Option (Option Int)`.
* The clock (`new Date()`) and the HTTP transport (axios) are the two collaborators of the
  library.  They are the fields of `Mondo`: the k-th reading of the clock, the outcome of the
  k-th request, and the log of the requests issued so far.
* An `async` method is a function from the receiver and the world to an `Esecuzione`: the
  value or the thrown error, the receiver afterwards, the world afterwards.
* Error messages are not modelled, only the class of the error and the fields
  `statusCode` and `response` of the HTTP errors.
* A date built from a string `YYYY-MM-DD` is kept as its calendar fields; the host's time
  zone (`Host.fuso`) decides which day its local getters show.
* The members of a `ListaUtenti` are references into a heap of `Utente` objects; the
  promises of a batch are settled member after member, in the order of the array.
-/

namespace Classeviva

/-! ## JavaScript values -/

/-- The JavaScript values that a property of a parsed JSON body may hold.  Arrays and
nested objects are `obj`, told apart by a tag. -/
inductive JsVal where
  | undefined
  | null
  | bool (b : Bool)
  | num (n : Int)
  | str (s : String)
  | obj (tag : Nat)
  deriving DecidableEq, Inhabited

namespace JsVal

/-- Truthiness (`ToBoolean`): what `if (v)` and `!v` look at. -/
def truthy : JsVal → Bool
  | undefined => false
  | null => false
  | bool b => b
  | num n => n != 0
  | str s => s != ""
  | obj _ => true

/-- The operator `a || b`. -/
def oppure (a b : JsVal) : JsVal := if a.truthy then a else b

end JsVal

/-! ## Responses and errors -/

/-- A parsed JSON body (`response.data`).  The properties the library reads by name on a
login body are fields; `release` and `expire` hold the time value that
`new Date(data.release)` and `new Date(data.expire)` compute (`none` for an Invalid Date,
as when the property is missing).  Every other property is in `altri`. -/
structure Corpo where
  ident : JsVal
  firstName : JsVal
  lastName : JsVal
  token : JsVal
  release : Option Int
  expire : Option Int
  altri : List (String × JsVal)
  deriving DecidableEq, Inhabited

/-- The empty object `{}`. -/
def Corpo.vuoto : Corpo :=
  { ident := .undefined, firstName := .undefined, lastName := .undefined,
    token := .undefined, release := none, expire := none, altri := [] }

/-- An axios response: status code and parsed body. -/
structure Risposta where
  status : Nat
  data : Corpo
  deriving DecidableEq, Inhabited

/-- What a request comes to: the promise resolves with a response, or it rejects with an
error whose `response` property is the response of the server, or is missing (network
failure). -/
inductive Esito where
  | risolta (r : Risposta)
  | rifiutata (response : Option Risposta)
  deriving DecidableEq, Inhabited

/-- The argument of `sollevaErroreHTTP`: a response, or an object without the shape of a
response (an error object) with whatever `status` and `statusCode` it carries, or
`undefined`. -/
inductive ArgErrore where
  | risposta (r : Risposta)
  | errore (status statusCode : JsVal)
  | assente
  deriving DecidableEq, Inhabited

/-- The error classes of `eccezioni.js` that the library throws, `TypeError`, the error
with which axios rejects a request (`AxiosError`, with its `response` property), and a
plain `Error`. -/
inductive Errore where
  | TokenNonValido
  | TokenScaduto
  | TokenNonPresente
  | PasswordNonValida
  | SenzaDati
  | ErroreHTTP (statusCode : JsVal) (response : ArgErrore)
  | ErroreHTTP404 (response : ArgErrore)
  | FormatoNonValido
  | DataFuoriGamma
  | ParametroNonValido
  | CategoriaNonPresente
  | TypeError
  | AxiosError (response : Option Risposta)
  | Error
  deriving DecidableEq, Inhabited

/-- The property `status` of the argument (`response?.status`). -/
def ArgErrore.status : ArgErrore → JsVal
  | .risposta r => .num r.status
  | .errore s _ => s
  | .assente => .undefined

/-- The property `statusCode` of the argument (`response?.statusCode`); an axios response
has none. -/
def ArgErrore.statusCode : ArgErrore → JsVal
  | .risposta _ => .undefined
  | .errore _ c => c
  | .assente => .undefined

/-- The function `sollevaErroreHTTP(response)`: it always throws; the result is the error
thrown. -/
def sollevaErroreHTTP (response : ArgErrore) : Errore :=
  let statusCode := (response.status.oppure response.statusCode).oppure (.str "unknown")
  if statusCode = .num 404 then
    .ErroreHTTP404 response
  else
    .ErroreHTTP statusCode response

/-! ## Constants -/

/-- Session lifetime in seconds. -/
def TEMPO_CONNESSIONE : Nat := 5400

/-- Standard request headers. -/
def intestazione : List (String × JsVal) :=
  [("content-type", .str "application/json"),
   ("Z-Dev-ApiKey", .str "Tg1NWEwNGIgIC0K"),
   ("User-Agent", .str "CVVS/std/4.2.3 Android/12")]

/-- The base of every endpoint. -/
def BASE_URL : String := "https://web.spaggiari.eu/rest"

namespace Collegamenti

/-- Login endpoint. -/
def accesso : String := BASE_URL ++ "/v1/auth/login"

/-- Ticket endpoint. -/
def biglietto : String := BASE_URL ++ "/v1/auth/ticket"

end Collegamenti

/-! ## The world: clock and transport -/

/-- HTTP verbs the library uses. -/
inductive Metodo where
  | GET
  | POST
  deriving DecidableEq, Inhabited

/-- A request handed to axios. -/
structure Richiesta where
  metodo : Metodo
  url : String
  headers : List (String × JsVal)
  corpo : Option (List (String × JsVal))
  deriving DecidableEq, Inhabited

/-- The calendar fields of a `Date` object: `getFullYear()`, `getMonth()` (0 to 11) and
`getDate()`. -/
structure CampiData where
  fullYear : Int
  month : Int
  date : Int
  deriving DecidableEq, Inhabited

/-- What the host decides about dates.  `fuso` is the number of minutes by which its local
time is ahead of UTC (negative west of Greenwich, less than a day either way).  `rotola`
says what `new Date("YYYY-MM-DD")` does with a day from 29 to 31 that the month does not
have: `true` when it rolls over into the next month (V8), `false` when it is an Invalid
Date. -/
structure Host where
  fuso : Int
  rotola : Bool
  deriving DecidableEq, Inhabited

/-- The collaborators of the library.  `ora k` is the k-th reading of `new Date()`,
`letture` counts the readings made; `rete k r` is the outcome of request `r` when it is the
k-th one issued; `registro` is the log of the requests issued, oldest first.  `locale k`
holds the calendar fields, in local time, of the k-th reading of the clock; `host` is the
host's handling of dates. -/
structure Mondo where
  ora : Nat → Int
  letture : Nat
  rete : Nat → Richiesta → Esito
  registro : List Richiesta
  locale : Nat → CampiData := fun _ => { fullYear := 1970, month := 0, date := 1 }
  host : Host := { fuso := 0, rotola := true }

/-- Read the clock: `new Date()`. -/
def Mondo.adesso (w : Mondo) : Int × Mondo :=
  (w.ora w.letture, { w with letture := w.letture + 1 })

/-- Read the clock for its calendar fields: `new Date()` followed by local getters. -/
def Mondo.oggi (w : Mondo) : CampiData × Mondo :=
  (w.locale w.letture, { w with letture := w.letture + 1 })

/-- Issue a request and wait for its outcome. -/
def Mondo.invia (w : Mondo) (r : Richiesta) : Esito × Mondo :=
  (w.rete w.registro.length r, { w with registro := w.registro ++ [r] })

/-! ## Utente -/

/-- The fields of an `Utente` object. -/
structure Utente where
  id : String
  _id : String
  password : String
  _dati : Corpo
  _token : JsVal
  inizio : Option (Option Int)
  fine : Option (Option Int)
  deriving DecidableEq, Inhabited

/-- The replacement `id.replace(/^[SG]/, '')`: a leading `S` or `G` is dropped. -/
def rimuoviRuolo (id : String) : String :=
  match id.data with
  | c :: cs => if c = 'S' ∨ c = 'G' then String.mk cs else id
  | [] => id

/-- The constructor `new Utente(id, password)`. -/
def Utente.nuovo (id password : String) : Utente :=
  { id := id,
    _id := rimuoviRuolo id,
    password := password,
    _dati := Corpo.vuoto,
    _token := .null,
    inizio := none,
    fine := none }

/-- The getter `connesso`, with the reading of the clock it makes given as `adesso`. -/
def Utente.connessoA (u : Utente) (adesso : Int) : Bool :=
  match u.inizio with
  | some (some inizio) =>
      let passati : ℚ := ((adesso - inizio : Int) : ℚ) / 1000
      decide (passati < (TEMPO_CONNESSIONE : ℚ))
  | some none => false
  | none => false

/-- The getter `connesso`: reads the clock once. -/
def Utente.connesso (u : Utente) (w : Mondo) : Bool × Mondo :=
  let (adesso, w1) := w.adesso
  (u.connessoA adesso, w1)

/-- The getter `token`, with the reading of the clock that `connesso` makes given as
`adesso` (it is read only when a token is stored). -/
def Utente.tokenA (u : Utente) (adesso : Int) : Except Errore JsVal :=
  if !u._token.truthy then
    .error .TokenNonPresente
  else if !u.connessoA adesso then
    .error .TokenScaduto
  else
    .ok u._token

/-- The method `_getIntestazione()`: the standard headers and the token header. -/
def Utente._getIntestazione (u : Utente) : Except Errore (List (String × JsVal)) :=
  if !u._token.truthy then
    .error .TokenNonPresente
  else
    .ok (intestazione ++ [("Z-Auth-Token", u._token)])

/-- The run of an `async` method of `Utente`: the value returned or the error thrown, the
receiver afterwards, the world afterwards. -/
structure Esecuzione (α : Type) where
  esito : Except Errore α
  utente : Utente
  mondo : Mondo

/-- The login request that `accedi` hands to `axios.post`. -/
def Utente.richiestaAccesso (u : Utente) : Richiesta :=
  { metodo := .POST,
    url := Collegamenti.accesso,
    headers := intestazione,
    corpo := some [("ident", .null), ("pass", .str u.password), ("uid", .str u.id)] }

/-- The method `accedi()`. -/
def Utente.accedi (u : Utente) (w : Mondo) : Esecuzione Unit :=
  let (c, w1) := u.connesso w
  if c then
    { esito := .ok (), utente := u, mondo := w1 }
  else
    let (e, w2) := w1.invia u.richiestaAccesso
    match e with
    | .risolta response =>
        if response.status = 200 then
          { esito := .ok (),
            utente := { u with
              _dati := response.data,
              inizio := some response.data.release,
              fine := some response.data.expire,
              _token := response.data.token },
            mondo := w2 }
        else
          { esito := .ok (), utente := u, mondo := w2 }
    | .rifiutata (some response) =>
        if response.status = 422 then
          { esito := .error .PasswordNonValida, utente := u, mondo := w2 }
        else
          { esito := .error (sollevaErroreHTTP (.risposta response)), utente := u, mondo := w2 }
    | .rifiutata none =>
        { esito := .error (sollevaErroreHTTP (.errore .undefined .undefined)),
          utente := u, mondo := w2 }

/-- The method `bigliettoCompleto()`: the body of the ticket response. -/
def Utente.bigliettoCompleto (u : Utente) (w : Mondo) : Esecuzione Corpo :=
  match u._getIntestazione with
  | .error err => { esito := .error err, utente := u, mondo := w }
  | .ok headers =>
      let (e, w1) := w.invia
        { metodo := .GET, url := Collegamenti.biglietto, headers := headers, corpo := none }
      match e with
      | .risolta response =>
          if response.status ≠ 200 then
            { esito := .error (sollevaErroreHTTP (.risposta response)), utente := u, mondo := w1 }
          else
            { esito := .ok response.data, utente := u, mondo := w1 }
      | .rifiutata response =>
          -- no `try` around `axios.get` here: the rejection of the transport propagates
          { esito := .error (.AxiosError response), utente := u, mondo := w1 }

/-- The method `biglietto()`: the property `ticket` of the ticket body. -/
def Utente.biglietto (u : Utente) (w : Mondo) : Esecuzione JsVal :=
  let completo := u.bigliettoCompleto w
  match completo.esito with
  | .error err => { esito := .error err, utente := completo.utente, mondo := completo.mondo }
  | .ok corpo =>
      { esito := .ok ((corpo.altri.lookup "ticket").getD .undefined),
        utente := completo.utente, mondo := completo.mondo }

/-- The states of an `Utente` object reachable from the constructor by calls of `accedi`,
each in a world that satisfies `P`. -/
inductive Raggiungibile (P : Mondo → Prop) : Utente → Prop where
  | nuovo (id password : String) : Raggiungibile P (Utente.nuovo id password)
  | accedi (u : Utente) (w : Mondo) : Raggiungibile P u → P w → Raggiungibile P (u.accedi w).utente

/-- Every response of the world with status 200 carries a token (a truthy `token`). -/
def Mondo.portaToken (w : Mondo) : Prop :=
  ∀ (k : Nat) (r : Richiesta) (response : Risposta),
    w.rete k r = .risolta response → response.status = 200 → response.data.token.truthy = true

/-! ## ListaUtenti -/

/-- A reference to an `Utente` object: membership in a `Set` goes by reference. -/
abbrev Rif := Nat

/-- The objects behind the references. -/
abbrev Heap := Rif → Utente

/-- An item of the iterable handed to the constructor: an `Utente` object or something
else. -/
inductive Elemento where
  | utente (r : Rif)
  | altro
  deriving DecidableEq, Inhabited

/-- The members of a `ListaUtenti` (a `Set`), in insertion order. -/
abbrev ListaUtenti := List Rif

namespace ListaUtenti

/-- The inherited `Set.prototype.add`. -/
def add (this : ListaUtenti) (r : Rif) : ListaUtenti :=
  if r ∈ this then this else this ++ [r]

/-- The inherited `Set.prototype.delete`. -/
def delete (this : ListaUtenti) (r : Rif) : ListaUtenti :=
  this.filter (fun x => x != r)

/-- The call `array.indexOf(r)`: the first index of `r`, or `-1`. -/
def indexOf (array : List Rif) (r : Rif) : Int :=
  if List.indexOf r array < array.length then (List.indexOf r array : Int) else -1

/-- The call `array.splice(start, 1)`, as the array it leaves: a negative `start` counts
from the end. -/
def splice1 (array : List Rif) (start : Int) : List Rif :=
  let len : Int := array.length
  let da : Int := if start < 0 then max (len + start) 0 else min start len
  array.eraseIdx da.toNat

/-- The test of both loops: same bare key and same password. -/
def stessoAccount (h : Heap) (a b : Rif) : Bool :=
  (h a)._id = (h b)._id && (h a).password = (h b).password

/-- The inner loop of `_riduci`: `for (const utentino of altraCopia) ...`. -/
def riduciInterno (h : Heap) (utente : Rif) (altraCopia : List Rif) (this : ListaUtenti) :
    ListaUtenti :=
  altraCopia.foldl
    (fun s utentino => if stessoAccount h utente utentino then delete s utentino else s) this

/-- The method `_riduci()`: the outer loop runs over a copy made at the start, the inner
one over a copy of the set as it is then, with the current member spliced out. -/
def _riduci (h : Heap) (this : ListaUtenti) : ListaUtenti :=
  this.foldl
    (fun s utente =>
      let altraCopia := splice1 s (indexOf s utente)
      riduciInterno h utente altraCopia s)
    this

/-- The constructor `new ListaUtenti(utenti)`. -/
def nuova (h : Heap) (utenti : List Elemento) : ListaUtenti :=
  _riduci h
    (utenti.foldl
      (fun s e =>
        match e with
        | .utente r => add s r
        | .altro => s)
      [])

/-- The method `aggiungi(utente)` on an `Utente` object: the value returned and the set
afterwards. -/
def aggiungi (h : Heap) (this : ListaUtenti) (utente : Rif) : Bool × ListaUtenti :=
  if this.any (fun u => stessoAccount h u utente) then
    (false, this)
  else
    (true, add this utente)

/-- The filter of the getters `connessi` (`vuole = true`) and `nonConnessi`
(`vuole = false`): `connesso` is read on each member in turn. -/
def filtraConnessi (vuole : Bool) (h : Heap) : List Rif → Mondo → List Rif × Mondo
  | [], w => ([], w)
  | r :: rs, w =>
      let (c, w1) := (h r).connesso w
      let (resto, w2) := filtraConnessi vuole h rs w1
      (if c = vuole then r :: resto else resto, w2)

/-- The getter `nonConnessi`: a plain `Set` of the members that are not connected. -/
def nonConnessi (h : Heap) (this : ListaUtenti) (w : Mondo) : List Rif × Mondo :=
  filtraConnessi false h this w

end ListaUtenti

/-- The names of the methods of a plain `Set` object: those of `Set.prototype` and of
`Object.prototype`. -/
def metodiSet : List String :=
  ["add", "clear", "delete", "difference", "entries", "forEach", "has", "intersection",
   "isDisjointFrom", "isSubsetOf", "isSupersetOf", "keys", "symmetricDifference", "union",
   "values", "hasOwnProperty", "isPrototypeOf", "propertyIsEnumerable", "toLocaleString",
   "toString", "valueOf"]

/-- The run of an `async` method of `ListaUtenti`: the value or the error, the objects
afterwards, the world afterwards. -/
structure EsecuzioneLista (α : Type) where
  esito : Except Errore α
  heap : Heap
  mondo : Mondo

/-- The logins of `promiseAccessi` run to completion, in the order of the array: the objects
afterwards, the world afterwards and the first rejection if there is one. -/
def accediTutti : List Rif → Heap → Mondo → Option Errore → EsecuzioneLista Unit
  | [], h, w, primo =>
      { esito := match primo with
          | some err => .error err
          | none => .ok (),
        heap := h, mondo := w }
  | r :: rs, h, w, primo =>
      let e := (h r).accedi w
      let primo1 := match primo, e.esito with
        | some err, _ => some err
        | none, .error err => some err
        | none, .ok _ => none
      accediTutti rs (Function.update h r e.utente) e.mondo primo1

/-- The method `ListaUtenti.accedi()`: `this.nonConnessi` is a plain `Set`, on which the
method `map` is looked up and called. -/
def ListaUtenti.accedi (h : Heap) (this : ListaUtenti) (w : Mondo) : EsecuzioneLista Unit :=
  let (nonConnessi, w1) := ListaUtenti.nonConnessi h this w
  if "map" ∈ metodiSet then
    accediTutti nonConnessi h w1 none
  else
    -- `this.nonConnessi.map` is `undefined`: calling it throws
    { esito := .error .TypeError, heap := h, mondo := w1 }

/-! ## Endpoints and `Collegamenti.format` -/

namespace Collegamenti

/-- The placeholder `{}` of the templates. -/
def segnaposto : String := "\x7b\x7d"

/-- Grades. -/
def voti : String := BASE_URL ++ "/v1/students/" ++ segnaposto ++ "/grades"

/-- All absences. -/
def assenze : String := BASE_URL ++ "/v1/students/" ++ segnaposto ++ "/absences/details"

/-- Absences from a date. -/
def assenzeDa : String :=
  BASE_URL ++ "/v1/students/" ++ segnaposto ++ "/absences/details/" ++ segnaposto

/-- Absences between two dates. -/
def assenzeDaA : String :=
  BASE_URL ++ "/v1/students/" ++ segnaposto ++ "/absences/details/" ++ segnaposto ++ "/" ++
    segnaposto

/-- Agenda between two dates. -/
def agendaDaA : String :=
  BASE_URL ++ "/v1/students/" ++ segnaposto ++ "/agenda/all/" ++ segnaposto ++ "/" ++
    segnaposto

/-- Lessons of today. -/
def lezioni : String := BASE_URL ++ "/v1/students/" ++ segnaposto ++ "/lessons/today"

/-- Lessons of a day. -/
def lezioniGiorno : String :=
  BASE_URL ++ "/v1/students/" ++ segnaposto ++ "/lessons/" ++ segnaposto

/-- One note. -/
def leggiNota : String :=
  BASE_URL ++ "/v1/students/" ++ segnaposto ++ "/notes/" ++ segnaposto ++ "/read/" ++
    segnaposto

/-- Overview between two dates. -/
def panoramicaDaA : String :=
  BASE_URL ++ "/v1/students/" ++ segnaposto ++ "/overview/all/" ++ segnaposto ++ "/" ++
    segnaposto

/-- The text before and the text after the first occurrence of the two characters of the
placeholder, if there is one. -/
def dividi : List Char → Option (List Char × List Char)
  | [] => none
  | c :: cs =>
      match cs with
      | [] => none
      | d :: ds =>
          if c = Char.ofNat 123 ∧ d = Char.ofNat 125 then
            some ([], ds)
          else
            (dividi cs).map (fun p => (c :: p.1, p.2))

/-- The replacement text that `String.prototype.replace` makes out of a replacement string
when the pattern is a string: `$$` is a dollar, `$&` the matched text, dollar-backtick the
text before the match, dollar-apostrophe the text after it; any other character, a dollar
before anything else included, stands for itself. -/
def espandi (prima dopo : List Char) : List Char → List Char
  | [] => []
  | [c] => [c]
  | c :: d :: ds =>
      if c = Char.ofNat 36 ∧ d = Char.ofNat 36 then
        Char.ofNat 36 :: espandi prima dopo ds
      else if c = Char.ofNat 36 ∧ d = Char.ofNat 38 then
        segnaposto.data ++ espandi prima dopo ds
      else if c = Char.ofNat 36 ∧ d = Char.ofNat 96 then
        prima ++ espandi prima dopo ds
      else if c = Char.ofNat 36 ∧ d = Char.ofNat 39 then
        dopo ++ espandi prima dopo ds
      else
        c :: espandi prima dopo (d :: ds)

/-- The call `result.replace(segnaposto, param)`: the first placeholder is replaced. -/
def sostituisci (result param : String) : String :=
  match dividi result.data with
  | none => result
  | some (prima, dopo) => String.mk (prima ++ espandi prima dopo param.data ++ dopo)

/-- The function `Collegamenti.format(template, ...params)`, the parameters as the strings
that `replace` converts them to. -/
def format (template : String) (params : List String) : String :=
  params.foldl sostituisci template

end Collegamenti

/-! ## Dates -/

/-- The value of a decimal digit, if the character is one (`\d`). -/
def cifra (c : Char) : Option Nat :=
  if c.isDigit then some (c.toNat - 48) else none

/-- The test of `dateRegex` (four digits, dash, two digits, dash, two digits, nothing else)
together with `data.split('-').map(Number)`: year, month and day as numbers. -/
def analizzaData (data : String) : Option (Nat × Nat × Nat) :=
  match data.data with
  | [y1, y2, y3, y4, t1, m1, m2, t2, d1, d2] =>
      if t1 = '-' ∧ t2 = '-' then
        match cifra y1, cifra y2, cifra y3, cifra y4, cifra m1, cifra m2, cifra d1, cifra d2 with
        | some a, some b, some c, some d, some e, some f, some g, some h =>
            some (1000 * a + 100 * b + 10 * c + d, 10 * e + f, 10 * g + h)
        | _, _, _, _, _, _, _, _ => none
      else none
  | _ => none

/-- Leap years of the Gregorian calendar. -/
def bisestile (anno : Int) : Bool :=
  anno % 4 = 0 && (anno % 100 != 0 || anno % 400 = 0)

/-- The number of days of a month (1 to 12) of a year. -/
def giorniDelMese (anno : Int) (mese : Nat) : Nat :=
  if mese = 2 then (if bisestile anno then 29 else 28)
  else if mese = 4 ∨ mese = 6 ∨ mese = 9 ∨ mese = 11 then 30
  else 31

/-- The calendar fields in UTC of `new Date(data)` for a string of the shape `YYYY-MM-DD`,
which is read as midnight UTC: `none` for an Invalid Date. -/
def nuovaData (host : Host) (year month day : Nat) : Option CampiData :=
  if month < 1 ∨ 12 < month ∨ day < 1 ∨ 31 < day then
    none
  else if day ≤ giorniDelMese year month then
    some { fullYear := year, month := (month : Int) - 1, date := day }
  else if host.rotola then
    some { fullYear := year, month := month, date := (day : Int) - giorniDelMese year month }
  else
    none

/-- The day before, month from 0 to 11. -/
def giornoPrima (c : CampiData) : CampiData :=
  if 1 < c.date then
    { c with date := c.date - 1 }
  else if 0 < c.month then
    { c with month := c.month - 1, date := giorniDelMese c.fullYear c.month.toNat }
  else
    { fullYear := c.fullYear - 1, month := 11, date := 31 }

/-- The calendar fields in local time of a date that is midnight UTC: the same day when the
local time is not behind UTC, the day before when it is. -/
def inLocale (host : Host) (utc : CampiData) : CampiData :=
  if 0 ≤ host.fuso then utc else giornoPrima utc

/-- The body of the loop of `validaDate` for one string. -/
def validaData (host : Host) (data : String) : Except Errore Unit :=
  match analizzaData data with
  | none => .error .FormatoNonValido
  | some (year, month, day) =>
      match nuovaData host year month day with
      | none => .error .FormatoNonValido
      | some utc =>
          let dateObj := inLocale host utc
          if dateObj.fullYear ≠ year ∨ dateObj.month + 1 ≠ month ∨ dateObj.date ≠ day then
            .error .FormatoNonValido
          else
            .ok ()

/-- The function `validaDate(...date)`. -/
def validaDate (host : Host) : List String → Except Errore Unit
  | [] => .ok ()
  | data :: resto =>
      match validaData host data with
      | .error err => .error err
      | .ok _ => validaDate host resto

/-- A string of the shape `YYYY-MM-DD` that names a day of the calendar: month from 1 to 12,
day from 1 to the length of the month. -/
def dataValida (data : String) : Bool :=
  match analizzaData data with
  | none => false
  | some (year, month, day) =>
      decide (1 ≤ month ∧ month ≤ 12 ∧ 1 ≤ day ∧ day ≤ giorniDelMese year month)

/-- The function `anno()`. -/
def anno (w : Mondo) : Int × Mondo :=
  let (oggi, w1) := w.oggi
  (oggi.fullYear, w1)

/-- The function `annoScolasticoInizio()`. -/
def annoScolasticoInizio (w : Mondo) : Int × Mondo :=
  let (oggi, w1) := w.oggi
  let mese := oggi.month + 1
  if mese < 9 then
    let (a, w2) := anno w1
    (a - 1, w2)
  else
    anno w1

/-- The function `dataInizioAnno()`. -/
def dataInizioAnno (w : Mondo) : String × Mondo :=
  let (a, w1) := annoScolasticoInizio w
  (toString a ++ "0901", w1)

/-- The function `dataFineAnno()`. -/
def dataFineAnno (w : Mondo) : String × Mondo :=
  let (a, w1) := annoScolasticoInizio w
  (toString (a + 1) ++ "0630", w1)

/-- The function `formattaDataPerAPI(data)`: every dash is removed. -/
def formattaDataPerAPI (data : String) : String :=
  String.mk (data.data.filter (fun c => c != '-'))

/-! ## Data operations of `Utente` -/

/-- The property `k` of a body that is not one of the named fields; a property of a
nested object is listed in `altri` under its dotted path. -/
def Corpo.campo (c : Corpo) (k : String) : JsVal :=
  (c.altri.lookup k).getD .undefined

/-- The line `if (!this.connesso) await this.accedi();`. -/
def Utente.assicura (u : Utente) (w : Mondo) : Esecuzione Unit :=
  let (c, w1) := u.connesso w
  if c then
    { esito := .ok (), utente := u, mondo := w1 }
  else
    u.accedi w1

/-- A request outside any `try`: the headers with the token, the request, the value taken
from a response of status 200, `sollevaErroreHTTP` on another status; the rejection of the
transport propagates. -/
def Utente.richiesta {α : Type} (u : Utente) (w : Mondo) (metodo : Metodo) (url : String)
    (corpo : Option (List (String × JsVal))) (estrai : Corpo → α) : Esecuzione α :=
  match u._getIntestazione with
  | .error err => { esito := .error err, utente := u, mondo := w }
  | .ok headers =>
      let (e, w1) := w.invia { metodo := metodo, url := url, headers := headers, corpo := corpo }
      match e with
      | .risolta response =>
          if response.status = 200 then
            { esito := .ok (estrai response.data), utente := u, mondo := w1 }
          else
            { esito := .error (sollevaErroreHTTP (.risposta response)), utente := u, mondo := w1 }
      | .rifiutata response =>
          { esito := .error (.AxiosError response), utente := u, mondo := w1 }

/-- The test `errore.startsWith(codice)`. -/
def iniziaCon (errore codice : String) : Bool :=
  codice.data.isPrefixOf errore.data

/-- The `catch` block of the operations with remote error codes, for an error that carries
the response of the server: on status 404 the property `error` of the body, or the empty
string, is compared with the codes in turn (calling `startsWith` on a value that is not a
string throws `TypeError`); in every other case `sollevaErroreHTTP`. -/
def traduci (codici : List (String × Errore)) (response : Risposta) : Errore :=
  if response.status = 404 then
    match (response.data.campo "error").oppure (.str "") with
    | .str errore =>
        match codici.find? (fun c => iniziaCon errore c.1) with
        | some c => c.2
        | none => sollevaErroreHTTP (.risposta response)
    | _ => .TypeError
  else
    sollevaErroreHTTP (.risposta response)

/-- A request inside `try`: an error thrown while the request is built or the value is
taken is caught like a rejection without response; a resolved response of another status
than 200 falls through and the method returns `undefined`. -/
def Utente.richiestaProtetta (u : Utente) (w : Mondo) (metodo : Metodo) (url : String)
    (corpo : Option (List (String × JsVal))) (estrai : Corpo → Except Errore JsVal)
    (codici : List (String × Errore)) : Esecuzione JsVal :=
  match u._getIntestazione with
  | .error _ =>
      { esito := .error (sollevaErroreHTTP (.errore .undefined .undefined)),
        utente := u, mondo := w }
  | .ok headers =>
      let (e, w1) := w.invia { metodo := metodo, url := url, headers := headers, corpo := corpo }
      match e with
      | .risolta response =>
          if response.status = 200 then
            match estrai response.data with
            | .ok v => { esito := .ok v, utente := u, mondo := w1 }
            | .error _ =>
                { esito := .error (sollevaErroreHTTP (.errore .undefined .undefined)),
                  utente := u, mondo := w1 }
          else
            { esito := .ok .undefined, utente := u, mondo := w1 }
      | .rifiutata (some response) =>
          { esito := .error (traduci codici response), utente := u, mondo := w1 }
      | .rifiutata none =>
          { esito := .error (sollevaErroreHTTP (.errore .undefined .undefined)),
            utente := u, mondo := w1 }

/-- The remote error codes of the date operations. -/
def codiciDate : List (String × Errore) :=
  [("120", .FormatoNonValido), ("122", .DataFuoriGamma)]

/-- The remote error codes of `leggiNota`. -/
def codiciNota : List (String × Errore) :=
  [("130", .ParametroNonValido), ("102", .CategoriaNonPresente)]

/-- The test `!x` on an optional string argument: missing, or the empty string. -/
def manca (x : Option String) : Bool :=
  match x with
  | none => true
  | some s => s = ""

/-- The method `voti()`. -/
def Utente.voti (u : Utente) (w : Mondo) : Esecuzione JsVal :=
  let a := u.assicura w
  match a.esito with
  | .error err => { esito := .error err, utente := a.utente, mondo := a.mondo }
  | .ok _ =>
      a.utente.richiesta a.mondo .GET (Collegamenti.format Collegamenti.voti [a.utente._id])
        none (fun d => d.campo "grades")

/-- The method `assenze()`. -/
def Utente.assenze (u : Utente) (w : Mondo) : Esecuzione JsVal :=
  let a := u.assicura w
  match a.esito with
  | .error err => { esito := .error err, utente := a.utente, mondo := a.mondo }
  | .ok _ =>
      a.utente.richiesta a.mondo .GET (Collegamenti.format Collegamenti.assenze [a.utente._id])
        none (fun d => d.campo "events")

/-- The method `assenzeDa(inizio)`. -/
def Utente.assenzeDa (u : Utente) (w : Mondo) (inizio : Option String) : Esecuzione JsVal :=
  if manca inizio then u.assenze w
  else
    let inizio := inizio.getD ""
    match validaDate w.host [inizio] with
    | .error err => { esito := .error err, utente := u, mondo := w }
    | .ok _ =>
        let a := u.assicura w
        match a.esito with
        | .error err => { esito := .error err, utente := a.utente, mondo := a.mondo }
        | .ok _ =>
            a.utente.richiestaProtetta a.mondo .GET
              (Collegamenti.format Collegamenti.assenzeDa
                [a.utente._id, formattaDataPerAPI inizio])
              none (fun d => .ok (d.campo "events")) codiciDate

/-- The method `assenzeDaA(inizio, fine)`. -/
def Utente.assenzeDaA (u : Utente) (w : Mondo) (inizio fine : Option String) :
    Esecuzione JsVal :=
  if manca inizio then u.assenze w
  else if manca fine then u.assenzeDa w inizio
  else
    let inizio := inizio.getD ""
    let fine := fine.getD ""
    match validaDate w.host [inizio, fine] with
    | .error err => { esito := .error err, utente := u, mondo := w }
    | .ok _ =>
        let a := u.assicura w
        match a.esito with
        | .error err => { esito := .error err, utente := a.utente, mondo := a.mondo }
        | .ok _ =>
            a.utente.richiestaProtetta a.mondo .GET
              (Collegamenti.format Collegamenti.assenzeDaA
                [a.utente._id, formattaDataPerAPI inizio, formattaDataPerAPI fine])
              none (fun d => .ok (d.campo "events")) codiciDate

/-- The method `agenda()`. -/
def Utente.agenda (u : Utente) (w : Mondo) : Esecuzione JsVal :=
  let a := u.assicura w
  match a.esito with
  | .error err => { esito := .error err, utente := a.utente, mondo := a.mondo }
  | .ok _ =>
      let (inizio, w1) := dataInizioAnno a.mondo
      let (fine, w2) := dataFineAnno w1
      a.utente.richiesta w2 .GET
        (Collegamenti.format Collegamenti.agendaDaA [a.utente._id, inizio, fine])
        none (fun d => d.campo "agenda")

/-- The method `agendaDaA(inizio, fine)`. -/
def Utente.agendaDaA (u : Utente) (w : Mondo) (inizio fine : Option String) :
    Esecuzione JsVal :=
  if manca inizio || manca fine then u.agenda w
  else
    let inizio := inizio.getD ""
    let fine := fine.getD ""
    match validaDate w.host [inizio, fine] with
    | .error err => { esito := .error err, utente := u, mondo := w }
    | .ok _ =>
        let a := u.assicura w
        match a.esito with
        | .error err => { esito := .error err, utente := a.utente, mondo := a.mondo }
        | .ok _ =>
            a.utente.richiestaProtetta a.mondo .GET
              (Collegamenti.format Collegamenti.agendaDaA
                [a.utente._id, formattaDataPerAPI inizio, formattaDataPerAPI fine])
              none (fun d => .ok (d.campo "agenda")) codiciDate

/-- The method `leggiNota(tipo, id)`. -/
def Utente.leggiNota (u : Utente) (w : Mondo) (tipo : String) (id : Int) : Esecuzione JsVal :=
  let a := u.assicura w
  match a.esito with
  | .error err => { esito := .error err, utente := a.utente, mondo := a.mondo }
  | .ok _ =>
      a.utente.richiestaProtetta a.mondo .POST
        (Collegamenti.format Collegamenti.leggiNota [a.utente._id, tipo, toString id])
        (some [])
        (fun d =>
          match d.campo "event" with
          | .undefined => .error .TypeError
          | .null => .error .TypeError
          | .obj _ => .ok (d.campo "event.evtText")
          | _ => .ok .undefined)
        codiciNota

/-- The method `lezioni()`. -/
def Utente.lezioni (u : Utente) (w : Mondo) : Esecuzione JsVal :=
  let a := u.assicura w
  match a.esito with
  | .error err => { esito := .error err, utente := a.utente, mondo := a.mondo }
  | .ok _ =>
      a.utente.richiesta a.mondo .GET (Collegamenti.format Collegamenti.lezioni [a.utente._id])
        none (fun d => d.campo "lessons")

/-- The method `lezioniGiorno(giorno)`. -/
def Utente.lezioniGiorno (u : Utente) (w : Mondo) (giorno : Option String) :
    Esecuzione JsVal :=
  if manca giorno then u.lezioni w
  else
    let giorno := giorno.getD ""
    match validaDate w.host [giorno] with
    | .error err => { esito := .error err, utente := u, mondo := w }
    | .ok _ =>
        let a := u.assicura w
        match a.esito with
        | .error err => { esito := .error err, utente := a.utente, mondo := a.mondo }
        | .ok _ =>
            a.utente.richiesta a.mondo .GET
              (Collegamenti.format Collegamenti.lezioniGiorno
                [a.utente._id, formattaDataPerAPI giorno])
              none (fun d => d.campo "lessons")

/-- The call `s.slice(0, 4)`. -/
def primiQuattro (s : String) : String := String.mk (s.data.take 4)

/-- The defaults of `panoramicaDaA`: a missing bound becomes 1 September or 30 June of the
school year. -/
def limitiPanoramica (w : Mondo) (inizio fine : Option String) : String × String × Mondo :=
  if manca inizio || manca fine then
    if manca inizio && manca fine then
      let (i, w1) := dataInizioAnno w
      let (f, w2) := dataFineAnno w1
      (primiQuattro i ++ "-09-01", primiQuattro f ++ "-06-30", w2)
    else if manca inizio then
      let (i, w1) := dataInizioAnno w
      (primiQuattro i ++ "-09-01", fine.getD "", w1)
    else
      let (f, w1) := dataFineAnno w
      (inizio.getD "", primiQuattro f ++ "-06-30", w1)
  else
    (inizio.getD "", fine.getD "", w)

/-- The method `panoramicaDaA(inizio, fine)`: the whole body of the response. -/
def Utente.panoramicaDaA (u : Utente) (w : Mondo) (inizio fine : Option String) :
    Esecuzione Corpo :=
  let (inizio, fine, w0) := limitiPanoramica w inizio fine
  match validaDate w0.host [inizio, fine] with
  | .error err => { esito := .error err, utente := u, mondo := w0 }
  | .ok _ =>
      let a := u.assicura w0
      match a.esito with
      | .error err => { esito := .error err, utente := a.utente, mondo := a.mondo }
      | .ok _ =>
          a.utente.richiesta a.mondo .GET
            (Collegamenti.format Collegamenti.panoramicaDaA
              [a.utente._id, formattaDataPerAPI inizio, formattaDataPerAPI fine])
            none (fun d => d)

/-- The three values that the getter `dati` returns. -/
structure DatiEssenziali where
  ident : JsVal
  firstName : JsVal
  lastName : JsVal
  deriving DecidableEq, Inhabited

/-- The getter `dati`. -/
def Utente.dati (u : Utente) : Except Errore DatiEssenziali :=
  if !u._dati.ident.truthy || !u._dati.firstName.truthy || !u._dati.lastName.truthy then
    .error .SenzaDati
  else
    .ok { ident := u._dati.ident, firstName := u._dati.firstName, lastName := u._dati.lastName }

/-! ## Batch operations of `ListaUtenti` -/

/-- The promises of `mappaTutti` and of `applicaTutti`, settled member after member in the
order of the array: each member runs `f` on its own object, a value is kept and an error
makes `nullo`.  The members are distinct objects and their runs share the clock and the
transport only. -/
def perTutti {α : Type} (nullo : α) (f : Utente → Mondo → Esecuzione α) :
    List Rif → Heap → Mondo → List α × Heap × Mondo
  | [], h, w => ([], h, w)
  | r :: rs, h, w =>
      let e := f (h r) w
      let v := match e.esito with
        | .ok v => v
        | .error _ => nullo
      let resto := perTutti nullo f rs (Function.update h r e.utente) e.mondo
      (v :: resto.1, resto.2.1, resto.2.2)

/-- The outcomes of the runs of `perTutti`, member after member: the value or the error of
each. -/
def esitiTutti {α : Type} (f : Utente → Mondo → Esecuzione α) :
    List Rif → Heap → Mondo → List (Except Errore α)
  | [], _, _ => []
  | r :: rs, h, w =>
      let e := f (h r) w
      e.esito :: esitiTutti f rs (Function.update h r e.utente) e.mondo

/-- The method `mappaTutti(trasformatore)`; `none` is `null`. -/
def ListaUtenti.mappaTutti {α : Type} (h : Heap) (this : ListaUtenti) (w : Mondo)
    (trasformatore : Utente → Mondo → Esecuzione α) : EsecuzioneLista (List (Option α)) :=
  let r := perTutti none
    (fun u w =>
      let e := trasformatore u w
      { esito := e.esito.map some, utente := e.utente, mondo := e.mondo })
    this h w
  { esito := .ok r.1, heap := r.2.1, mondo := r.2.2 }

/-- What `utente[funzione]` is: a function, which is then called with the arguments, or a
value that is not a function, or a getter that throws.  The reading of the clock that a
getter may make during the lookup is left out. -/
inductive Proprieta where
  | funzione (f : List JsVal → Utente → Mondo → Esecuzione JsVal)
  | nonFunzione
  | lancia (err : Errore)

/-- The body of the callback of `applicaTutti` for one member, `cerca` being the lookup of
the property: a name that is not a function throws `Error`, caught like any other. -/
def applicaUno (cerca : String → Utente → Proprieta) (funzione : String) (args : List JsVal)
    (u : Utente) (w : Mondo) : Esecuzione JsVal :=
  match cerca funzione u with
  | .funzione f => f args u w
  | .nonFunzione => { esito := .error .Error, utente := u, mondo := w }
  | .lancia err => { esito := .error err, utente := u, mondo := w }

/-- The method `applicaTutti(funzione, ...args)`. -/
def ListaUtenti.applicaTutti (cerca : String → Utente → Proprieta) (h : Heap)
    (this : ListaUtenti) (w : Mondo) (funzione : String) (args : List JsVal) :
    EsecuzioneLista (List JsVal) :=
  let r := perTutti JsVal.null (applicaUno cerca funzione args) this h w
  { esito := .ok r.1, heap := r.2.1, mondo := r.2.2 }

/-- An entry of `votiTutti` (`chiave` is `voti`) or of `assenzeTutti` (`chiave` is
`assenze`): the object literal with the identifier, the two names and the data. -/
structure Voce where
  utente : String
  nome : JsVal
  cognome : JsVal
  chiave : String
  valore : JsVal
  deriving DecidableEq, Inhabited

/-- The callback of `votiTutti` and `assenzeTutti`: the properties of the object literal
are evaluated in order, the getter `dati` first (it throws when the data are
insufficient), the fetch last. -/
def trasformaVoce (chiave : String) (fetch : Utente → Mondo → Esecuzione JsVal)
    (u : Utente) (w : Mondo) : Esecuzione Voce :=
  match u.dati with
  | .error err => { esito := .error err, utente := u, mondo := w }
  | .ok dati =>
      let nome := dati.firstName.oppure (.str "N/D")
      let cognome := dati.lastName.oppure (.str "N/D")
      let e := fetch u w
      match e.esito with
      | .error err => { esito := .error err, utente := e.utente, mondo := e.mondo }
      | .ok v =>
          { esito := .ok { utente := u.id, nome := nome, cognome := cognome,
                           chiave := chiave, valore := v },
            utente := e.utente, mondo := e.mondo }

/-- The method `votiTutti()`. -/
def ListaUtenti.votiTutti (h : Heap) (this : ListaUtenti) (w : Mondo) :
    EsecuzioneLista (List (Option Voce)) :=
  ListaUtenti.mappaTutti h this w (trasformaVoce "voti" Utente.voti)

/-- The method `assenzeTutti()`. -/
def ListaUtenti.assenzeTutti (h : Heap) (this : ListaUtenti) (w : Mondo) :
    EsecuzioneLista (List (Option Voce)) :=
  ListaUtenti.mappaTutti h this w (trasformaVoce "assenze" Utente.assenze)

/-- The value that a settled run leaves in the array of results. -/
def valoreONullo {α : Type} (nullo : α) (e : Except Errore α) : α :=
  match e with
  | .ok v => v
  | .error _ => nullo

/-! ## Date converters and the end of the school year -/

/-- The function `formattaDataDaAPI(data)`.  Lengths and slices of JavaScript count UTF-16
code units, which are the characters of a string that has none beyond the basic plane. -/
def formattaDataDaAPI (data : String) : Except Errore String :=
  if data.length ≠ 8 then
    .error .FormatoNonValido
  else
    .ok (String.mk (data.data.take 4) ++ "-" ++ String.mk ((data.data.drop 4).take 2) ++ "-" ++
      String.mk ((data.data.drop 6).take 2))

/-- The call `String(n).padStart(2, '0')`. -/
def dueCifre (n : Int) : String :=
  if (toString n).length < 2 then "0" ++ toString n else toString n

/-- The comparison `a < b` of a `Date` with the calendar fields `a` in local time and the
`Date` that is midnight, local time, at the start of the day `b`: the day of `a` comes
before the day `b`. -/
def primaDelGiorno (a b : CampiData) : Bool :=
  decide (a.fullYear < b.fullYear ∨
    (a.fullYear = b.fullYear ∧
      (a.month < b.month ∨ (a.month = b.month ∧ a.date < b.date))))

/-- The function `dataFineAnnoOOggi()`. -/
def dataFineAnnoOOggi (w : Mondo) : String × Mondo :=
  let (oggi, w1) := w.oggi
  let (a, w2) := anno w1
  let fineAnno : CampiData := { fullYear := a, month := 5, date := 30 }
  if primaDelGiorno oggi fineAnno then
    let mese := dueCifre (oggi.month + 1)
    let giorno := dueCifre oggi.date
    let (a1, w3) := anno w2
    (toString a1 ++ mese ++ giorno, w3)
  else
    dataFineAnno w2

/-- The end of the school year as the documentation words it, for the day `oggi`: 30 June
of the year after the start of the school year, which is the year of `oggi` from September
to December and the year before from January to August. -/
def fineAnnoScolastico (oggi : CampiData) : CampiData :=
  { fullYear := (if oggi.month + 1 < 9 then oggi.fullYear - 1 else oggi.fullYear) + 1,
    month := 5, date := 30 }

/-- The value that the documentation of `dataFineAnnoOOggi` words, for the day `oggi`:
the day itself when it comes before the end of the school year, that end otherwise. -/
def fineAnnoOOggiAtteso (oggi : CampiData) : String :=
  if primaDelGiorno oggi (fineAnnoScolastico oggi) then
    toString oggi.fullYear ++ dueCifre (oggi.month + 1) ++ dueCifre oggi.date
  else
    toString (fineAnnoScolastico oggi).fullYear ++ "0630"

/-! ## Collections that the library can make -/

/-- The method `filtra(condizione)`: the members that satisfy the condition, handed to the
constructor. -/
def ListaUtenti.filtra (h : Heap) (this : ListaUtenti) (condizione : Rif → Bool) :
    ListaUtenti :=
  ListaUtenti.nuova h ((this.filter condizione).map Elemento.utente)

/-- The collections obtained by the constructor from any iterable, followed by any calls of
`aggiungi` and of `filtra`; the bare key and the password of an object do not change. -/
inductive Ottenibile (h : Heap) : ListaUtenti → Prop where
  | nuova (utenti : List Elemento) : Ottenibile h (ListaUtenti.nuova h utenti)
  | aggiungi (l : ListaUtenti) (u : Rif) :
      Ottenibile h l → Ottenibile h (ListaUtenti.aggiungi h l u).2
  | filtra (l : ListaUtenti) (condizione : Rif → Bool) :
      Ottenibile h l → Ottenibile h (ListaUtenti.filtra h l condizione)

/-! ## Concrete inputs -/

/-- A login answered with status 200 and a body that has the dates but no `token`. -/
def rispostaSenzaToken : Risposta :=
  { status := 200,
    data := { Corpo.vuoto with release := some 0, expire := some 5400000 } }

/-- A world whose clock stands at one second and whose server answers every request with
`rispostaSenzaToken`. -/
def mondoSenzaToken : Mondo :=
  { ora := fun _ => 1000, letture := 0,
    rete := fun _ _ => .risolta rispostaSenzaToken, registro := [] }

/-- The client of the example file after `accedi()` in `mondoSenzaToken`. -/
def utenteSenzaToken : Utente :=
  ((Utente.nuovo "S1234567" "password_esempio").accedi mondoSenzaToken).utente

/-- A login answered with status 200, a token, and a release instant at time zero. -/
def rispostaBuona : Risposta :=
  { status := 200,
    data := { Corpo.vuoto with
      ident := .str "S1234567", firstName := .str "Ada", lastName := .str "Rossi",
      token := .str "abc", release := some 0, expire := some 5400000 } }

/-- A world whose clock stands at one second and whose server answers every request with
`rispostaBuona`. -/
def mondoBuono : Mondo :=
  { ora := fun _ => 1000, letture := 0,
    rete := fun _ _ => .risolta rispostaBuona, registro := [] }

/-- A world whose clock stands at ten thousand seconds and whose server answers every
request with `rispostaBuona`, released at time zero. -/
def mondoTardi : Mondo :=
  { ora := fun _ => 10000000, letture := 0,
    rete := fun _ _ => .risolta rispostaBuona, registro := [] }

/-- A client that holds the session of `rispostaBuona`. -/
def utenteConnesso : Utente :=
  { Utente.nuovo "S1234567" "password_esempio" with
    _dati := rispostaBuona.data, _token := .str "abc",
    inizio := some (some 0), fine := some (some 5400000) }

/-- A world whose clock stands at one second and whose server rejects every request with
status 422. -/
def mondoRifiuto : Mondo :=
  { ora := fun _ => 1000, letture := 0,
    rete := fun _ _ => .rifiutata (some { status := 422, data := Corpo.vuoto }),
    registro := [] }

/-- Three objects: two for the account `S1` with the same password, one for `S2`. -/
def heapEsempio : Heap := fun r =>
  if r = 2 then Utente.nuovo "S2" "pw" else Utente.nuovo "S1" "pw"

/-- Objects with the bare key `1111111`: references 0 and 1 share the password,
the others have another one. -/
def heapChiavi : Heap := fun r =>
  if r = 0 then Utente.nuovo "S1111111" "password1"
  else if r = 1 then Utente.nuovo "G1111111" "password1"
  else Utente.nuovo "S1111111" "password2"

/-- Two fresh clients of the example file. -/
def heapDue : Heap := fun r =>
  if r = 0 then Utente.nuovo "S1111111" "password1" else Utente.nuovo "S2222222" "password2"

/-- A world whose clock stands at one second and whose server rejects with status 422 the
login of `S1111111` and answers every other request with `rispostaBuona`. -/
def mondoMisto : Mondo :=
  { ora := fun _ => 1000, letture := 0,
    rete := fun _ r =>
      if r.corpo = some [("ident", .null), ("pass", .str "password1"), ("uid", .str "S1111111")]
      then .rifiutata (some { status := 422, data := Corpo.vuoto })
      else .risolta rispostaBuona,
    registro := [] }

/-- A lookup that knows the method `accedi` alone. -/
def cercaAccedi : String → Utente → Proprieta := fun nome _ =>
  if nome = "accedi" then
    .funzione (fun _ u w =>
      let e := u.accedi w
      { esito := e.esito.map (fun _ => JsVal.undefined), utente := e.utente, mondo := e.mondo })
  else
    .nonFunzione

/-- A rejection with status 400 whose body carries the remote error code 120. -/
def risposta400 : Risposta :=
  { status := 400, data := { Corpo.vuoto with altri := [("error", .str "120:CvvRestApi")] } }

/-- A rejection with status 404 whose body carries the remote error code 122. -/
def risposta404 : Risposta :=
  { status := 404, data := { Corpo.vuoto with altri := [("error", .str "122:CvvRestApi")] } }

/-- A world whose clock stands at one second and whose server rejects every request with
`risposta400`. -/
def mondo400 : Mondo :=
  { ora := fun _ => 1000, letture := 0,
    rete := fun _ _ => .rifiutata (some risposta400), registro := [] }

/-- A world whose clock stands at one second and whose server rejects every request with
`risposta404`. -/
def mondo404 : Mondo :=
  { ora := fun _ => 1000, letture := 0,
    rete := fun _ _ => .rifiutata (some risposta404), registro := [] }

/-- A world in which every reading of the clock shows 15 October 2024. -/
def mondoOttobre : Mondo :=
  { ora := fun _ => 0, letture := 0, rete := fun _ _ => .rifiutata none, registro := [],
    locale := fun _ => { fullYear := 2024, month := 9, date := 15 } }

/-- A world in which every reading of the clock shows 5 March 2025. -/
def mondoMarzo : Mondo :=
  { ora := fun _ => 0, letture := 0, rete := fun _ _ => .rifiutata none, registro := [],
    locale := fun _ => { fullYear := 2025, month := 2, date := 5 } }

/-! ## Lemmas -/

theorem passati_lt_iff (adesso inizio : Int) :
    ((adesso - inizio : Int) : ℚ) / 1000 < (TEMPO_CONNESSIONE : ℚ) ↔
      adesso - inizio < 5400000 := by
  unfold TEMPO_CONNESSIONE
  rw [div_lt_iff₀ (by norm_num : (0 : ℚ) < 1000)]
  have h : ((5400 : ℕ) : ℚ) * 1000 = ((5400000 : ℤ) : ℚ) := by norm_num
  rw [h]
  exact Int.cast_lt

theorem connessoA_iff (u : Utente) (adesso : Int) :
    u.connessoA adesso = true ↔ ∃ t0, u.inizio = some (some t0) ∧ adesso - t0 < 5400000 := by
  unfold Utente.connessoA
  rcases h : u.inizio with _ | _ | t0
  · simp
  · simp
  · simp only [decide_eq_true_eq, Option.some.injEq, exists_eq_left']
    exact passati_lt_iff adesso t0

theorem connessoA_eq_false_iff (u : Utente) (adesso : Int) :
    u.connessoA adesso = false ↔ ∀ t0, u.inizio = some (some t0) → 5400000 ≤ adesso - t0 := by
  rw [← Bool.not_eq_true, connessoA_iff]
  constructor
  · intro h t0 h0
    by_contra hlt
    exact h ⟨t0, h0, by omega⟩
  · rintro h ⟨t0, h0, hlt⟩
    have := h t0 h0
    omega

/-- The objects that `accedi` can leave: the receiver untouched, or the receiver with the
four fields taken from a response of status 200 to its login request. -/
theorem accedi_utente (u : Utente) (w : Mondo) :
    (u.accedi w).utente = u ∨
    ∃ response : Risposta,
      w.rete w.registro.length u.richiestaAccesso = .risolta response ∧
      response.status = 200 ∧
      (u.accedi w).utente =
        { u with
          _dati := response.data,
          inizio := some response.data.release,
          fine := some response.data.expire,
          _token := response.data.token } := by
  unfold Utente.accedi Utente.connesso Mondo.adesso Mondo.invia
  by_cases hc : u.connessoA (w.ora w.letture) = true
  · left; simp [hc]
  · simp only [hc]
    rcases he : w.rete w.registro.length u.richiestaAccesso with r | (_ | r)
    · by_cases h200 : r.status = 200
      · right; exact ⟨r, rfl, h200, by simp [he, h200]⟩
      · left; simp [he, h200]
    · left; simp [he]
    · left
      by_cases h422 : r.status = 422 <;> simp [he, h422]

/-! ## Session: `connesso` and `token` -/

/-- C1, as stated, fails: after a login answered with status 200 and a body without
`token`, the client holds no token, yet `connesso` is true one second after the release
instant. -/
theorem connesso_senza_token :
    utenteSenzaToken._token = .undefined ∧
    utenteSenzaToken._token.truthy = false ∧
    utenteSenzaToken.inizio = some (some 0) ∧
    utenteSenzaToken.connessoA 1000 = true ∧
    ¬ (utenteSenzaToken.connessoA 1000 = true ↔
        (utenteSenzaToken._token.truthy = true ∧
          ∃ t0, utenteSenzaToken.inizio = some (some t0) ∧ (1000 : Int) - t0 < 5400 * 1000)) := by
  have h1 : utenteSenzaToken._token = .undefined := by
    simp [utenteSenzaToken, Utente.accedi, Utente.connesso, Mondo.adesso, Mondo.invia,
      mondoSenzaToken, rispostaSenzaToken, Utente.nuovo, Utente.connessoA, Corpo.vuoto]
  have h2 : utenteSenzaToken.inizio = some (some 0) := by
    simp [utenteSenzaToken, Utente.accedi, Utente.connesso, Mondo.adesso, Mondo.invia,
      mondoSenzaToken, rispostaSenzaToken, Utente.nuovo, Utente.connessoA, Corpo.vuoto]
  have h3 : utenteSenzaToken.connessoA 1000 = true :=
    (connessoA_iff _ _).2 ⟨0, h2, by norm_num⟩
  refine ⟨h1, by rw [h1]; rfl, h2, h3, ?_⟩
  intro h
  have h4 := (h.1 h3).1
  rw [h1] at h4
  exact absurd h4 (by decide)

/-- C1, amended: `connesso` is true if and only if `inizio` holds a valid date and less
than 5400 seconds (5400000 ms) have passed since it, whatever `_token` holds; when the
token is set exactly if `inizio` is, that is the same as a token existing and less than
5400 seconds having passed.  It is false on a freshly constructed client, and false
whenever 5400 seconds or more have passed. -/
theorem connesso_iff_inizio (u : Utente) (adesso : Int) (id password : String) :
    TEMPO_CONNESSIONE = 5400 ∧
    (u.connessoA adesso = true ↔
      ∃ t0, u.inizio = some (some t0) ∧ adesso - t0 < 5400 * 1000) ∧
    ((u._token.truthy = true ↔ u.inizio ≠ none) →
      (u.connessoA adesso = true ↔
        (u._token.truthy = true ∧
          ∃ t0, u.inizio = some (some t0) ∧ adesso - t0 < 5400 * 1000))) ∧
    (Utente.nuovo id password).connessoA adesso = false ∧
    (∀ t0, u.inizio = some (some t0) → 5400 * 1000 ≤ adesso - t0 →
      u.connessoA adesso = false) := by
  refine ⟨rfl, connessoA_iff u adesso, ?_, ?_, ?_⟩
  · intro hinv
    rw [connessoA_iff]
    constructor
    · rintro ⟨t0, h0, hlt⟩
      exact ⟨hinv.2 (by rw [h0]; simp), t0, h0, hlt⟩
    · rintro ⟨_, h⟩
      exact h
  · rw [connessoA_eq_false_iff]
    intro t0 h0
    simp [Utente.nuovo] at h0
  · intro t0 h0 hge
    rw [connessoA_eq_false_iff]
    intro t1 h1
    rw [h0] at h1
    simp only [Option.some.injEq] at h1
    subst h1
    exact hge

/-- Witness of C1 amended, on the client that holds a session released at time zero: it
is connected one second later and no longer 5400 seconds later. -/
theorem connesso_iff_inizio_witness :
    utenteConnesso.connessoA 1000 = true ∧ utenteConnesso.connessoA 5400000 = false := by
  have h0 : utenteConnesso.inizio = some (some 0) := rfl
  have ht : utenteConnesso._token.truthy = true := by decide
  have hinv : utenteConnesso._token.truthy = true ↔ utenteConnesso.inizio ≠ none := by
    rw [h0]; simp [ht]
  constructor
  · exact ((connesso_iff_inizio utenteConnesso 1000 "S1" "pw").2.2.1 hinv).2
      ⟨ht, 0, h0, by norm_num⟩
  · exact (connesso_iff_inizio utenteConnesso 5400000 "S1" "pw").2.2.2.2 0 h0 (by norm_num)

/-- C2: the accessor `token` throws `TokenNonPresente` when no token is stored (`_token`
is falsy), otherwise throws `TokenScaduto` when `connesso` is false, otherwise returns
the stored token; whenever it returns, `connesso` is true and the value is the stored
token. -/
theorem token_accessor (u : Utente) (adesso : Int) :
    (u._token.truthy = false → u.tokenA adesso = .error .TokenNonPresente) ∧
    (u._token.truthy = true → u.connessoA adesso = false →
      u.tokenA adesso = .error .TokenScaduto) ∧
    (u._token.truthy = true → u.connessoA adesso = true → u.tokenA adesso = .ok u._token) ∧
    (∀ t, u.tokenA adesso = .ok t → u.connessoA adesso = true ∧ t = u._token) := by
  unfold Utente.tokenA
  refine ⟨?_, ?_, ?_, ?_⟩
  · intro h; simp [h]
  · intro h hc; simp [h, hc]
  · intro h hc; simp [h, hc]
  · intro t
    by_cases h : u._token.truthy = true <;> by_cases hc : u.connessoA adesso = true <;>
      simp [h, hc]
    intro ht
    exact ht.symm

/-- Witness of C2: a fresh client has no token; the client of `rispostaBuona` gets its
token one second after the release and `TokenScaduto` 5400 seconds after it. -/
theorem token_accessor_witness :
    (Utente.nuovo "S1234567" "password_esempio").tokenA 1000 = .error .TokenNonPresente ∧
    utenteConnesso.tokenA 5400000 = .error .TokenScaduto ∧
    utenteConnesso.tokenA 1000 = .ok (.str "abc") ∧
    utenteConnesso.connessoA 1000 = true := by
  have h0 : utenteConnesso.inizio = some (some 0) := rfl
  have ht : utenteConnesso._token.truthy = true := by decide
  have hc : utenteConnesso.connessoA 1000 = true :=
    (connessoA_iff _ _).2 ⟨0, h0, by norm_num⟩
  have hs : utenteConnesso.connessoA 5400000 = false :=
    (connessoA_eq_false_iff _ _).2 (fun t0 h => by
      rw [h0] at h
      simp only [Option.some.injEq] at h
      subst h
      norm_num)
  refine ⟨?_, ?_, ?_, ?_⟩
  · exact (token_accessor (Utente.nuovo "S1234567" "password_esempio") 1000).1 (by decide)
  · exact (token_accessor utenteConnesso 5400000).2.1 ht hs
  · exact (token_accessor utenteConnesso 1000).2.2.1 ht hc
  · exact ((token_accessor utenteConnesso 1000).2.2.2 (.str "abc")
      ((token_accessor utenteConnesso 1000).2.2.1 ht hc)).1

/-! ## Session: `accedi` -/

/-- C3, as stated, fails: the state left by one `accedi` answered with status 200 and a
body without `token` is reachable from the constructor, its `inizio` is set and its token
is not. -/
theorem invariante_senza_token :
    Raggiungibile (fun _ => True) utenteSenzaToken ∧
    utenteSenzaToken.inizio ≠ none ∧
    utenteSenzaToken._token.truthy = false ∧
    ¬ (utenteSenzaToken._token.truthy = true ↔ utenteSenzaToken.inizio ≠ none) := by
  have h1 : utenteSenzaToken._token = .undefined := by
    simp [utenteSenzaToken, Utente.accedi, Utente.connesso, Mondo.adesso, Mondo.invia,
      mondoSenzaToken, rispostaSenzaToken, Utente.nuovo, Utente.connessoA, Corpo.vuoto]
  have h2 : utenteSenzaToken.inizio = some (some 0) := by
    simp [utenteSenzaToken, Utente.accedi, Utente.connesso, Mondo.adesso, Mondo.invia,
      mondoSenzaToken, rispostaSenzaToken, Utente.nuovo, Utente.connessoA, Corpo.vuoto]
  refine ⟨?_, by rw [h2]; simp, by rw [h1]; rfl, ?_⟩
  · exact Raggiungibile.accedi _ mondoSenzaToken (Raggiungibile.nuovo _ _) trivial
  · intro h
    have h3 := h.2 (by rw [h2]; simp)
    rw [h1] at h3
    exact absurd h3 (by decide)

/-- C3, amended: in every state reachable from the constructor by `accedi` calls with
arbitrary responses, a set token implies a set `inizio`; when every response of status 200
carries a token, the token is set if and only if `inizio` is set. -/
theorem invariante_sessione (u : Utente) :
    (Raggiungibile (fun _ => True) u → (u._token.truthy = true → u.inizio ≠ none)) ∧
    (Raggiungibile Mondo.portaToken u → (u._token.truthy = true ↔ u.inizio ≠ none)) := by
  constructor
  · intro h
    induction h with
    | nuovo id password => simp [Utente.nuovo, JsVal.truthy]
    | accedi u w _ _ ih =>
        rcases accedi_utente u w with h | ⟨response, _, _, h⟩
        · rw [h]; exact ih
        · rw [h]; simp
  · intro h
    induction h with
    | nuovo id password => simp [Utente.nuovo, JsVal.truthy]
    | accedi u w _ hw ih =>
        rcases accedi_utente u w with h | ⟨response, hr, h200, h⟩
        · rw [h]; exact ih
        · rw [h]
          have ht := hw _ _ response hr h200
          simp [ht]

/-- Witness of C3 amended: the client of the example file after a login answered with
`rispostaBuona` has both its token and `inizio` set. -/
theorem invariante_sessione_witness :
    Raggiungibile Mondo.portaToken
      ((Utente.nuovo "S1234567" "password_esempio").accedi mondoBuono).utente ∧
    (((Utente.nuovo "S1234567" "password_esempio").accedi mondoBuono).utente._token.truthy
        = true ↔
      ((Utente.nuovo "S1234567" "password_esempio").accedi mondoBuono).utente.inizio
        ≠ none) := by
  have hw : mondoBuono.portaToken := by
    intro k r response hr _
    simp only [mondoBuono, Esito.risolta.injEq] at hr
    subst hr
    decide
  have hr : Raggiungibile Mondo.portaToken
      ((Utente.nuovo "S1234567" "password_esempio").accedi mondoBuono).utente :=
    Raggiungibile.accedi _ mondoBuono (Raggiungibile.nuovo _ _) hw
  exact ⟨hr, (invariante_sessione _).2 hr⟩

/-- C4, as stated, fails: a login answered with status 200, a token and a release instant
ten thousand seconds before the reading of the local clock completes without error, and
`connesso` is false right after it. -/
theorem accesso_riuscito_non_connesso :
    (Utente.nuovo "S1234567" "password_esempio").connessoA (mondoTardi.ora 0) = false ∧
    mondoTardi.rete 0 (Utente.nuovo "S1234567" "password_esempio").richiestaAccesso
      = .risolta rispostaBuona ∧
    ((Utente.nuovo "S1234567" "password_esempio").accedi mondoTardi).esito = .ok () ∧
    ((Utente.nuovo "S1234567" "password_esempio").accedi mondoTardi).mondo.registro
      = [(Utente.nuovo "S1234567" "password_esempio").richiestaAccesso] ∧
    ((Utente.nuovo "S1234567" "password_esempio").accedi mondoTardi).utente._token
      = .str "abc" ∧
    ((Utente.nuovo "S1234567" "password_esempio").accedi mondoTardi).utente.connessoA
      (mondoTardi.ora 1) = false := by
  have hu : ((Utente.nuovo "S1234567" "password_esempio").accedi mondoTardi).utente.inizio
      = some (some 0) := by
    simp [Utente.accedi, Utente.connesso, Mondo.adesso, Mondo.invia,
      mondoTardi, rispostaBuona, Utente.nuovo, Utente.connessoA, Corpo.vuoto]
  refine ⟨?_, rfl, ?_, ?_, ?_, ?_⟩
  · simp [Utente.nuovo, Utente.connessoA]
  · simp [Utente.accedi, Utente.connesso, Mondo.adesso, Mondo.invia,
      mondoTardi, rispostaBuona, Utente.nuovo, Utente.connessoA, Corpo.vuoto]
  · simp [Utente.accedi, Utente.connesso, Mondo.adesso, Mondo.invia,
      mondoTardi, rispostaBuona, Utente.nuovo, Utente.connessoA, Corpo.vuoto]
  · simp [Utente.accedi, Utente.connesso, Mondo.adesso, Mondo.invia,
      mondoTardi, rispostaBuona, Utente.nuovo, Utente.connessoA, Corpo.vuoto]
  · rw [connessoA_eq_false_iff]
    intro t0 h0
    rw [hu] at h0
    simp only [Option.some.injEq] at h0
    subst h0
    simp [mondoTardi]

/-- C4, amended: when `accedi` on a client that is not connected has its login request
answered with status 200, it completes without error, having issued that one request,
and `connesso` read afterwards at any instant is true if and only if the release instant
of the response is a valid date less than 5400 seconds before that instant. -/
theorem connesso_dopo_accesso (u : Utente) (w : Mondo) (response : Risposta) (poi : Int)
    (hnc : u.connessoA (w.ora w.letture) = false)
    (hr : w.rete w.registro.length u.richiestaAccesso = .risolta response)
    (h200 : response.status = 200) :
    (u.accedi w).esito = .ok () ∧
    (u.accedi w).mondo.registro = w.registro ++ [u.richiestaAccesso] ∧
    (u.accedi w).utente._token = response.data.token ∧
    ((u.accedi w).utente.connessoA poi = true ↔
      ∃ t0, response.data.release = some t0 ∧ poi - t0 < 5400 * 1000) := by
  have hu : (u.accedi w).utente =
      { u with
        _dati := response.data,
        inizio := some response.data.release,
        fine := some response.data.expire,
        _token := response.data.token } := by
    simp [Utente.accedi, Utente.connesso, Mondo.adesso, Mondo.invia, hnc, hr, h200]
  refine ⟨?_, ?_, ?_, ?_⟩
  · simp [Utente.accedi, Utente.connesso, Mondo.adesso, Mondo.invia, hnc, hr, h200]
  · simp [Utente.accedi, Utente.connesso, Mondo.adesso, Mondo.invia, hnc, hr, h200]
  · rw [hu]
  · rw [connessoA_iff, hu]
    simp

/-- Witness of C4 amended: the client of the example file, logged in by `rispostaBuona`
(released at time zero) when the clock stands at one second, is connected at that
instant. -/
theorem connesso_dopo_accesso_witness :
    (Utente.nuovo "S1234567" "password_esempio").connessoA (mondoBuono.ora mondoBuono.letture)
      = false ∧
    ((Utente.nuovo "S1234567" "password_esempio").accedi mondoBuono).esito = .ok () ∧
    ((Utente.nuovo "S1234567" "password_esempio").accedi mondoBuono).utente.connessoA 1000
      = true := by
  have hnc : (Utente.nuovo "S1234567" "password_esempio").connessoA
      (mondoBuono.ora mondoBuono.letture) = false := by
    simp [Utente.nuovo, Utente.connessoA]
  have h := connesso_dopo_accesso (Utente.nuovo "S1234567" "password_esempio") mondoBuono
    rispostaBuona 1000 hnc rfl rfl
  exact ⟨hnc, h.1, h.2.2.2.2 ⟨0, rfl, by norm_num⟩⟩

/-- C5: on a client that is connected when `accedi` reads the clock, `accedi` completes
without error, leaves every field of the client as it was (token, `inizio`, `fine`,
cached data) and issues no request. -/
theorem accedi_connesso_noop (u : Utente) (w : Mondo)
    (hc : u.connessoA (w.ora w.letture) = true) :
    (u.accedi w).esito = .ok () ∧
    (u.accedi w).utente = u ∧
    (u.accedi w).mondo.registro = w.registro ∧
    (u.accedi w).mondo.rete = w.rete := by
  simp [Utente.accedi, Utente.connesso, Mondo.adesso, hc]

/-- Witness of C5: the connected client, in a world whose clock stands one second after
its release instant. -/
theorem accedi_connesso_noop_witness :
    utenteConnesso.connessoA (mondoBuono.ora mondoBuono.letture) = true ∧
    (utenteConnesso.accedi mondoBuono).esito = .ok () ∧
    (utenteConnesso.accedi mondoBuono).utente = utenteConnesso ∧
    (utenteConnesso.accedi mondoBuono).mondo.registro = [] := by
  have hc : utenteConnesso.connessoA (mondoBuono.ora mondoBuono.letture) = true :=
    (connessoA_iff _ _).2 ⟨0, rfl, by simp [mondoBuono]⟩
  have h := accedi_connesso_noop utenteConnesso mondoBuono hc
  exact ⟨hc, h.1, h.2.1, h.2.2.1⟩

/-- C6: on a client that is not connected, when the transport rejects the login request
with the response of the server, `accedi` throws `PasswordNonValida` if the status is 422,
`ErroreHTTP404` carrying the response if it is 404, and for every other status code
(a status code is not zero) `ErroreHTTP` carrying that status and the response; the
client is left as it was. -/
theorem accedi_rifiutato (u : Utente) (w : Mondo) (response : Risposta)
    (hnc : u.connessoA (w.ora w.letture) = false)
    (hr : w.rete w.registro.length u.richiestaAccesso = .rifiutata (some response)) :
    (response.status = 422 → (u.accedi w).esito = .error .PasswordNonValida) ∧
    (response.status = 404 →
      (u.accedi w).esito = .error (.ErroreHTTP404 (.risposta response))) ∧
    (response.status ≠ 422 → response.status ≠ 404 → response.status ≠ 0 →
      (u.accedi w).esito =
        .error (.ErroreHTTP (.num response.status) (.risposta response))) ∧
    (u.accedi w).utente = u := by
  refine ⟨?_, ?_, ?_, ?_⟩
  · intro h
    simp [Utente.accedi, Utente.connesso, Mondo.adesso, Mondo.invia, hnc, hr, h]
  · intro h
    simp [Utente.accedi, Utente.connesso, Mondo.adesso, Mondo.invia, hnc, hr, h,
      sollevaErroreHTTP, ArgErrore.status, ArgErrore.statusCode, JsVal.oppure, JsVal.truthy]
  · intro h1 h2 h3
    have h4 : ((response.status : Int) = 404) ↔ False := by
      constructor
      · intro h; exact h2 (by exact_mod_cast h)
      · intro h; exact h.elim
    simp [Utente.accedi, Utente.connesso, Mondo.adesso, Mondo.invia, hnc, hr, h1, h3,
      sollevaErroreHTTP, ArgErrore.status, ArgErrore.statusCode, JsVal.oppure, JsVal.truthy,
      h4]
  · by_cases h : response.status = 422 <;>
      simp [Utente.accedi, Utente.connesso, Mondo.adesso, Mondo.invia, hnc, hr, h]

/-- Witness of C6: the fresh client of the example file, its login rejected with status
422. -/
theorem accedi_rifiutato_witness :
    (Utente.nuovo "INVALID" "wrong").connessoA (mondoRifiuto.ora mondoRifiuto.letture)
      = false ∧
    ((Utente.nuovo "INVALID" "wrong").accedi mondoRifiuto).esito
      = .error .PasswordNonValida := by
  have hnc : (Utente.nuovo "INVALID" "wrong").connessoA
      (mondoRifiuto.ora mondoRifiuto.letture) = false := by
    simp [Utente.nuovo, Utente.connessoA]
  exact ⟨hnc, (accedi_rifiutato (Utente.nuovo "INVALID" "wrong") mondoRifiuto
    { status := 422, data := Corpo.vuoto } hnc rfl).1 rfl⟩

/-! ## The ticket operations -/

/-- C7 at the ticket operations: on a freshly constructed client, which is not connected,
`biglietto()` and `bigliettoCompleto()` throw `TokenNonPresente` and issue no request, so
no login; on a client whose session has expired, `biglietto()` issues the ticket request
alone, with the stale token, and no login request.  On every client `bigliettoCompleto()`
issues at most the ticket request and leaves the client as it was. -/
theorem biglietto_senza_accesso (id password : String) (u : Utente) (w : Mondo) :
    ((u.bigliettoCompleto w).mondo.registro = w.registro ∨
      (u.bigliettoCompleto w).mondo.registro = w.registro ++
        [{ metodo := .GET, url := Collegamenti.biglietto,
           headers := intestazione ++ [("Z-Auth-Token", u._token)], corpo := none }]) ∧
    (u.bigliettoCompleto w).utente = u ∧
    (Utente.nuovo id password).connessoA (w.ora w.letture) = false ∧
    ((Utente.nuovo id password).bigliettoCompleto w).esito = .error .TokenNonPresente ∧
    ((Utente.nuovo id password).bigliettoCompleto w).mondo.registro = w.registro ∧
    ((Utente.nuovo id password).biglietto w).esito = .error .TokenNonPresente ∧
    ((Utente.nuovo id password).biglietto w).mondo.registro = w.registro ∧
    utenteConnesso.connessoA (mondoTardi.ora mondoTardi.letture) = false ∧
    (utenteConnesso.biglietto mondoTardi).mondo.registro =
      [{ metodo := .GET, url := Collegamenti.biglietto,
         headers := intestazione ++ [("Z-Auth-Token", .str "abc")], corpo := none }] ∧
    utenteConnesso.richiestaAccesso ∉ (utenteConnesso.biglietto mondoTardi).mondo.registro := by
  have hs : utenteConnesso.connessoA (mondoTardi.ora mondoTardi.letture) = false := by
    rw [connessoA_eq_false_iff]
    intro t0 h0
    have h1 : utenteConnesso.inizio = some (some 0) := rfl
    rw [h1] at h0
    simp only [Option.some.injEq] at h0
    subst h0
    simp [mondoTardi]
  have hreg : (utenteConnesso.biglietto mondoTardi).mondo.registro =
      [{ metodo := .GET, url := Collegamenti.biglietto,
         headers := intestazione ++ [("Z-Auth-Token", .str "abc")], corpo := none }] := by
    simp [Utente.biglietto, Utente.bigliettoCompleto, Utente._getIntestazione, Mondo.invia,
      utenteConnesso, mondoTardi, rispostaBuona, JsVal.truthy]
  refine ⟨?_, ?_, ?_, ?_, ?_, ?_, ?_, hs, hreg, ?_⟩
  · by_cases ht : u._token.truthy = true
    · right
      rcases he : w.rete w.registro.length
          { metodo := .GET, url := Collegamenti.biglietto,
            headers := intestazione ++ [("Z-Auth-Token", u._token)], corpo := none }
        with r | r
      · by_cases h200 : r.status = 200 <;>
          simp [Utente.bigliettoCompleto, Utente._getIntestazione, Mondo.invia, ht, he, h200]
      · simp [Utente.bigliettoCompleto, Utente._getIntestazione, Mondo.invia, ht, he]
    · left
      simp [Utente.bigliettoCompleto, Utente._getIntestazione, ht]
  · by_cases ht : u._token.truthy = true
    · rcases he : w.rete w.registro.length
          { metodo := .GET, url := Collegamenti.biglietto,
            headers := intestazione ++ [("Z-Auth-Token", u._token)], corpo := none }
        with r | r
      · by_cases h200 : r.status = 200 <;>
          simp [Utente.bigliettoCompleto, Utente._getIntestazione, Mondo.invia, ht, he, h200]
      · simp [Utente.bigliettoCompleto, Utente._getIntestazione, Mondo.invia, ht, he]
    · simp [Utente.bigliettoCompleto, Utente._getIntestazione, ht]
  · simp [Utente.nuovo, Utente.connessoA]
  · simp [Utente.bigliettoCompleto, Utente._getIntestazione, Utente.nuovo, JsVal.truthy]
  · simp [Utente.bigliettoCompleto, Utente._getIntestazione, Utente.nuovo, JsVal.truthy]
  · simp [Utente.biglietto, Utente.bigliettoCompleto, Utente._getIntestazione, Utente.nuovo,
      JsVal.truthy]
  · simp [Utente.biglietto, Utente.bigliettoCompleto, Utente._getIntestazione, Utente.nuovo,
      JsVal.truthy]
  · rw [hreg]
    simp [Utente.richiestaAccesso]

/-! ## The collection: `aggiungi` and the constructor -/

theorem any_stessoAccount (h : Heap) (l : List Rif) (u : Rif) :
    l.any (fun m => ListaUtenti.stessoAccount h m u) = true ↔
      ∃ m ∈ l, (h m)._id = (h u)._id ∧ (h m).password = (h u).password := by
  simp [List.any_eq_true, ListaUtenti.stessoAccount]

theorem rimuoviRuolo_S (d : String) : rimuoviRuolo ("S" ++ d) = d := by
  have h : ("S" ++ d).data = 'S' :: d.data := by
    rw [String.data_append]; rfl
  simp [rimuoviRuolo, h]

theorem rimuoviRuolo_G (d : String) : rimuoviRuolo ("G" ++ d) = d := by
  have h : ("G" ++ d).data = 'G' :: d.data := by
    rw [String.data_append]; rfl
  simp [rimuoviRuolo, h]

/-- C8: `aggiungi(u)` returns false and leaves the collection as it was when some member
has the bare key and the password of `u`; otherwise it appends `u`, returns true and the
size grows by one.  A member with the same bare key and another password does not stop
the insertion, and fresh clients `S`d and `G`d with one password are duplicates of each
other. -/
theorem aggiungi_spec (h : Heap) (l : ListaUtenti) (u m : Rif) (d pw : String) :
    ((∃ x ∈ l, (h x)._id = (h u)._id ∧ (h x).password = (h u).password) →
      ListaUtenti.aggiungi h l u = (false, l)) ∧
    ((¬ ∃ x ∈ l, (h x)._id = (h u)._id ∧ (h x).password = (h u).password) →
      ListaUtenti.aggiungi h l u = (true, l ++ [u]) ∧
      (ListaUtenti.aggiungi h l u).2.length = l.length + 1) ∧
    ((h m)._id = (h u)._id → (h m).password ≠ (h u).password →
      ListaUtenti.aggiungi h [m] u = (true, [m, u])) ∧
    (h m = Utente.nuovo ("S" ++ d) pw → h u = Utente.nuovo ("G" ++ d) pw →
      ListaUtenti.aggiungi h [m] u = (false, [m])) := by
  have key : ∀ l : ListaUtenti,
      (¬ ∃ x ∈ l, (h x)._id = (h u)._id ∧ (h x).password = (h u).password) →
      ListaUtenti.aggiungi h l u = (true, l ++ [u]) := by
    intro l hno
    have hany : ¬ (l.any (fun x => ListaUtenti.stessoAccount h x u) = true) := by
      rw [any_stessoAccount]; exact hno
    have hmem : u ∉ l := fun hu => hno ⟨u, hu, rfl, rfl⟩
    simp [ListaUtenti.aggiungi, ListaUtenti.add, hany, hmem]
  have dup : ∀ l : ListaUtenti,
      (∃ x ∈ l, (h x)._id = (h u)._id ∧ (h x).password = (h u).password) →
      ListaUtenti.aggiungi h l u = (false, l) := by
    intro l hex
    have hany : l.any (fun x => ListaUtenti.stessoAccount h x u) = true := by
      rw [any_stessoAccount]; exact hex
    simp [ListaUtenti.aggiungi, hany]
  refine ⟨dup l, ?_, ?_, ?_⟩
  · intro hno
    have hk := key l hno
    exact ⟨hk, by rw [hk]; simp⟩
  · intro _ hpw
    have := key [m] (by
      rintro ⟨x, hx, _, hp⟩
      simp only [List.mem_singleton] at hx
      subst hx
      exact hpw hp)
    simpa using this
  · intro hm hu
    apply dup [m]
    refine ⟨m, by simp, ?_, ?_⟩
    · rw [hm, hu]; simp [Utente.nuovo, rimuoviRuolo_S, rimuoviRuolo_G]
    · rw [hm, hu]; simp [Utente.nuovo]

/-- Witness of C8 on `heapChiavi`: `G1111111` with the password of the member `S1111111`
is refused, `S1111111` with another password is inserted. -/
theorem aggiungi_spec_witness :
    ListaUtenti.aggiungi heapChiavi [0] 1 = (false, [0]) ∧
    ListaUtenti.aggiungi heapChiavi [0] 2 = (true, [0, 2]) ∧
    (ListaUtenti.aggiungi heapChiavi [0] 2).2.length = 2 := by
  have h0 : heapChiavi 0 = Utente.nuovo ("S" ++ "1111111") "password1" := by decide
  have h1 : heapChiavi 1 = Utente.nuovo ("G" ++ "1111111") "password1" := by decide
  have hno : ¬ ∃ x ∈ ([0] : ListaUtenti),
      (heapChiavi x)._id = (heapChiavi 2)._id ∧
      (heapChiavi x).password = (heapChiavi 2).password := by
    rintro ⟨x, hx, _, hp⟩
    simp only [List.mem_singleton] at hx
    subst hx
    revert hp
    decide
  refine ⟨?_, ?_, ?_⟩
  · exact (aggiungi_spec heapChiavi [0] 1 0 "1111111" "password1").2.2.2 h0 h1
  · exact (aggiungi_spec heapChiavi [0] 2 0 "1111111" "password1").2.2.1 (by decide) (by decide)
  · exact ((aggiungi_spec heapChiavi [0] 2 0 "1111111" "password1").2.1 hno).2

/-- C9 at a failing input: from two objects of the account `S1` (same password) followed
by one of the account `S2`, the constructor keeps the object of `S2` alone: both objects
of `S1` are removed, the account is lost. -/
theorem costruttore_perde_account :
    (heapEsempio 0)._id = "1" ∧ (heapEsempio 1)._id = "1" ∧ (heapEsempio 2)._id = "2" ∧
    (heapEsempio 0).password = (heapEsempio 1).password ∧
    ListaUtenti.nuova heapEsempio [.utente 0, .utente 1, .utente 2] = [2] ∧
    ListaUtenti.nuova heapEsempio [.utente 0, .utente 2, .utente 1] = [2] ∧
    (∀ r ∈ ListaUtenti.nuova heapEsempio [.utente 0, .utente 1, .utente 2],
      (heapEsempio r)._id ≠ (heapEsempio 0)._id) := by
  decide

theorem filtraConnessi_registro (vuole : Bool) (h : Heap) (l : List Rif) (w : Mondo) :
    (ListaUtenti.filtraConnessi vuole h l w).2.registro = w.registro ∧
    (ListaUtenti.filtraConnessi vuole h l w).2.rete = w.rete := by
  induction l generalizing w with
  | nil => simp [ListaUtenti.filtraConnessi]
  | cons r rs ih =>
      simp only [ListaUtenti.filtraConnessi, Utente.connesso, Mondo.adesso]
      exact ih _

/-- C10 at every input: `ListaUtenti.accedi()` throws `TypeError` for every collection,
the empty one included; it issues no login request and leaves every member as it was,
connected or not: `nonConnessi` is a plain `Set` and has no method `map`. -/
theorem lista_accedi_TypeError (h : Heap) (l : ListaUtenti) (w : Mondo) :
    (ListaUtenti.accedi h l w).esito = .error .TypeError ∧
    (ListaUtenti.accedi h l w).heap = h ∧
    (ListaUtenti.accedi h l w).mondo.registro = w.registro ∧
    (ListaUtenti.accedi h [] w).esito = .error .TypeError := by
  have hm : ¬ ("map" ∈ metodiSet) := by decide
  have hreg := (filtraConnessi_registro false h l w).1
  simp [ListaUtenti.accedi, hm, ListaUtenti.nonConnessi, hreg]

/-! ## The collection: `accedi` with a rejected member -/

/-- C11 at a failing input: of two fresh members, the login of the first alone is rejected
with `PasswordNonValida` and the login of the second alone succeeds; `ListaUtenti.accedi()`
on the two throws `TypeError`, not `PasswordNonValida`, issues no request, and the second
member is not connected afterwards. -/
theorem lista_accedi_rifiuto :
    ((heapDue 0).accedi mondoMisto).esito = .error .PasswordNonValida ∧
    ((heapDue 1).accedi mondoMisto).esito = .ok () ∧
    ((heapDue 1).accedi mondoMisto).utente.connessoA 1000 = true ∧
    (ListaUtenti.accedi heapDue [0, 1] mondoMisto).esito = .error .TypeError ∧
    (ListaUtenti.accedi heapDue [0, 1] mondoMisto).esito ≠ .error .PasswordNonValida ∧
    (ListaUtenti.accedi heapDue [0, 1] mondoMisto).mondo.registro = [] ∧
    ((ListaUtenti.accedi heapDue [0, 1] mondoMisto).heap 1).connessoA 1000 = false := by
  have hm : ¬ ("map" ∈ metodiSet) := by decide
  have h0 : ((heapDue 0).accedi mondoMisto).esito = .error .PasswordNonValida := by
    simp [heapDue, mondoMisto, Utente.accedi, Utente.connesso, Mondo.adesso, Mondo.invia,
      Utente.nuovo, Utente.connessoA, Utente.richiestaAccesso]
  have h1 : ((heapDue 1).accedi mondoMisto).esito = .ok () := by
    simp [heapDue, mondoMisto, Utente.accedi, Utente.connesso, Mondo.adesso, Mondo.invia,
      Utente.nuovo, Utente.connessoA, Utente.richiestaAccesso, rispostaBuona]
  have h2 : ((heapDue 1).accedi mondoMisto).utente.inizio = some (some 0) := by
    simp [heapDue, mondoMisto, Utente.accedi, Utente.connesso, Mondo.adesso, Mondo.invia,
      Utente.nuovo, Utente.connessoA, Utente.richiestaAccesso, rispostaBuona]
  have he : (ListaUtenti.accedi heapDue [0, 1] mondoMisto).esito = .error .TypeError := by
    simp [ListaUtenti.accedi, hm]
  have hh : (ListaUtenti.accedi heapDue [0, 1] mondoMisto).heap = heapDue := by
    simp [ListaUtenti.accedi, hm]
  refine ⟨h0, h1, (connessoA_iff _ _).2 ⟨0, h2, by norm_num⟩, he, ?_, ?_, ?_⟩
  · rw [he]; simp
  · simp [ListaUtenti.accedi, hm, ListaUtenti.nonConnessi, ListaUtenti.filtraConnessi,
      Utente.connesso, Mondo.adesso, mondoMisto]
  · rw [hh]
    simp [heapDue, Utente.nuovo, Utente.connessoA]

/-! ## The collection: batch operations -/

theorem perTutti_esiti {α : Type} (nullo : α) (f : Utente → Mondo → Esecuzione α)
    (l : List Rif) (h : Heap) (w : Mondo) :
    (perTutti nullo f l h w).1 = (esitiTutti f l h w).map (valoreONullo nullo) := by
  induction l generalizing h w with
  | nil => simp [perTutti, esitiTutti]
  | cons r rs ih =>
      simp only [perTutti, esitiTutti, List.map_cons, ih]
      congr 1

theorem esitiTutti_length {α : Type} (f : Utente → Mondo → Esecuzione α)
    (l : List Rif) (h : Heap) (w : Mondo) :
    (esitiTutti f l h w).length = l.length := by
  induction l generalizing h w with
  | nil => simp [esitiTutti]
  | cons r rs ih => simp [esitiTutti, ih]

theorem count_nulli (es : List (Except Errore JsVal))
    (hv : ∀ v, Except.ok v ∈ es → v ≠ JsVal.null) :
    (es.map (valoreONullo JsVal.null)).count JsVal.null =
      es.countP (fun e => !e.toBool) := by
  induction es with
  | nil => simp
  | cons e es ih =>
      have ih1 := ih (fun v hm => hv v (List.mem_cons_of_mem _ hm))
      cases e with
      | error err =>
          simp [valoreONullo, Except.toBool, ih1]
      | ok v =>
          have hne : v ≠ JsVal.null := hv v (List.mem_cons_self _ _)
          have hne1 : ¬ (JsVal.null = v) := fun h => hne h.symm
          simp [valoreONullo, Except.toBool, ih1, List.count_cons, hne, hne1]

/-- C12: `applicaTutti(funzione, ...args)` never fails; it returns one result per member,
in the order of the members; each result is the value that the member's operation returned
if it succeeded and `null` if it failed, a name that is not a method being a failure.
Hence, when no operation that succeeds returns `null`, exactly one failing member makes
exactly one `null` result. -/
theorem applicaTutti_spec (cerca : String → Utente → Proprieta) (h : Heap)
    (l : ListaUtenti) (w : Mondo) (funzione : String) (args : List JsVal) :
    (ListaUtenti.applicaTutti cerca h l w funzione args).esito =
      .ok ((esitiTutti (applicaUno cerca funzione args) l h w).map
        (valoreONullo JsVal.null)) ∧
    (esitiTutti (applicaUno cerca funzione args) l h w).length = l.length ∧
    ((esitiTutti (applicaUno cerca funzione args) l h w).map
        (valoreONullo JsVal.null)).length = l.length ∧
    (∀ (u : Utente) (w1 : Mondo), cerca funzione u = .nonFunzione →
      (applicaUno cerca funzione args u w1).esito = .error .Error) ∧
    ((∀ v, Except.ok v ∈ esitiTutti (applicaUno cerca funzione args) l h w →
        v ≠ JsVal.null) →
      (esitiTutti (applicaUno cerca funzione args) l h w).countP (fun e => !e.toBool) = 1 →
      ((esitiTutti (applicaUno cerca funzione args) l h w).map
        (valoreONullo JsVal.null)).count JsVal.null = 1) := by
  refine ⟨?_, esitiTutti_length _ l h w, ?_, ?_, ?_⟩
  · simp [ListaUtenti.applicaTutti, perTutti_esiti]
  · simp [esitiTutti_length]
  · intro u w1 hc
    simp [applicaUno, hc]
  · intro hv h1
    rw [count_nulli _ hv, h1]

/-- Witness of C12: `applicaTutti('accedi')` on the two members of `heapDue`, the login of
the first rejected: the results are `null` and the `undefined` that `accedi` returns. -/
theorem applicaTutti_spec_witness :
    (ListaUtenti.applicaTutti cercaAccedi heapDue [0, 1] mondoMisto "accedi" []).esito =
      .ok [JsVal.null, JsVal.undefined] ∧
    ((esitiTutti (applicaUno cercaAccedi "accedi" []) [0, 1] heapDue mondoMisto).map
      (valoreONullo JsVal.null)).count JsVal.null = 1 ∧
    (ListaUtenti.applicaTutti cercaAccedi heapDue [0, 1] mondoMisto "voti" []).esito =
      .ok [JsVal.null, JsVal.null] := by
  have he : esitiTutti (applicaUno cercaAccedi "accedi" []) [0, 1] heapDue mondoMisto =
      [.error .PasswordNonValida, .ok JsVal.undefined] := by
    simp [esitiTutti, applicaUno, cercaAccedi, heapDue, mondoMisto, Utente.accedi,
      Utente.connesso, Mondo.adesso, Mondo.invia, Utente.nuovo, Utente.connessoA,
      Utente.richiestaAccesso, rispostaBuona, Function.update, Except.map]
  have hv : esitiTutti (applicaUno cercaAccedi "voti" []) [0, 1] heapDue mondoMisto =
      [.error .Error, .error .Error] := by
    simp [esitiTutti, applicaUno, cercaAccedi]
  have h := applicaTutti_spec cercaAccedi heapDue [0, 1] mondoMisto "accedi" []
  have h2 := applicaTutti_spec cercaAccedi heapDue [0, 1] mondoMisto "voti" []
  refine ⟨?_, ?_, ?_⟩
  · rw [h.1, he]; rfl
  · apply h.2.2.2.2
    · intro v hm
      rw [he] at hm
      simp at hm
      rw [hm]
      decide
    · rw [he]
      simp [Except.toBool]
  · rw [h2.1, hv]; rfl

/-- C13 at a failing input: on fresh members, whose logins the server would accept,
`votiTutti()` and `assenzeTutti()` return `null` for every member and issue no request,
although `voti()` on such a member alone logs in and succeeds: the getter `dati` throws
`SenzaDati` in the callback before the fetch is called, so no `N/D` is ever put in. -/
theorem votiTutti_senza_dati (id password chiave : String)
    (fetch : Utente → Mondo → Esecuzione JsVal) (w : Mondo) :
    (trasformaVoce chiave fetch (Utente.nuovo id password) w).esito = .error .SenzaDati ∧
    (trasformaVoce chiave fetch (Utente.nuovo id password) w).mondo.registro = w.registro ∧
    ((heapDue 1).voti mondoMisto).esito = .ok JsVal.undefined ∧
    (ListaUtenti.votiTutti heapDue [1] mondoMisto).esito = .ok [none] ∧
    (ListaUtenti.votiTutti heapDue [1] mondoMisto).mondo.registro = [] ∧
    (ListaUtenti.assenzeTutti heapDue [1] mondoMisto).esito = .ok [none] ∧
    (ListaUtenti.assenzeTutti heapDue [1] mondoMisto).mondo.registro = [] := by
  have hd : ∀ i p, (Utente.nuovo i p).dati = .error .SenzaDati := by
    intro i p
    simp [Utente.dati, Utente.nuovo, Corpo.vuoto, JsVal.truthy]
  have h1 : (heapDue 1).dati = .error .SenzaDati := hd _ _
  refine ⟨?_, ?_, ?_, ?_, ?_, ?_, ?_⟩
  · simp [trasformaVoce, hd]
  · simp [trasformaVoce, hd]
  · simp [Utente.voti, Utente.assicura, Utente.richiesta, Utente._getIntestazione,
      heapDue, mondoMisto, Utente.accedi, Utente.connesso, Mondo.adesso, Mondo.invia,
      Utente.nuovo, Utente.connessoA, Utente.richiestaAccesso, rispostaBuona, JsVal.truthy,
      Corpo.campo, Corpo.vuoto]
  · simp [ListaUtenti.votiTutti, ListaUtenti.mappaTutti, perTutti, trasformaVoce, h1,
      Except.map]
  · simp [ListaUtenti.votiTutti, ListaUtenti.mappaTutti, perTutti, trasformaVoce, h1,
      mondoMisto]
  · simp [ListaUtenti.assenzeTutti, ListaUtenti.mappaTutti, perTutti, trasformaVoce, h1,
      Except.map]
  · simp [ListaUtenti.assenzeTutti, ListaUtenti.mappaTutti, perTutti, trasformaVoce, h1,
      mondoMisto]

/-! ## `voti` and the key of the account -/

theorem espandi_senza_dollaro (prima dopo : List Char) (param : List Char)
    (h : Char.ofNat 36 ∉ param) : Collegamenti.espandi prima dopo param = param := by
  induction param using List.rec with
  | nil => rfl
  | cons c cs ih =>
      have hc : c ≠ Char.ofNat 36 := fun e => h (by rw [e]; exact List.mem_cons_self _ _)
      have hcs : Char.ofNat 36 ∉ cs := fun m => h (List.mem_cons_of_mem _ m)
      cases cs with
      | nil => rfl
      | cons d ds =>
          have := ih hcs
          simp only [Collegamenti.espandi, hc, false_and, if_false, this]

theorem format_voti (k : String) (h : Char.ofNat 36 ∉ k.data) :
    Collegamenti.format Collegamenti.voti [k] =
      BASE_URL ++ "/v1/students/" ++ k ++ "/grades" := by
  have hd : Collegamenti.dividi Collegamenti.voti.data =
      some ((BASE_URL ++ "/v1/students/").data, "/grades".data) := by decide
  simp only [Collegamenti.format, List.foldl, Collegamenti.sostituisci, hd,
    espandi_senza_dollaro _ _ _ h]
  apply String.ext
  simp [String.data_append]

/-- C14: on a client that is connected and holds the token `t`, with bare key `k` (free
of the dollar sign, as every key made of digits is), `voti()` issues exactly one request,
a GET to `<base>/v1/students/k/grades` with the standard headers and `Z-Auth-Token: t`,
leaves the client as it was, and on a response of status 200 returns the property `grades`
of the body; the identifier `S1234567` makes the path `/students/1234567/grades`. -/
theorem voti_richiesta (u : Utente) (w : Mondo) (password : String)
    (hc : u.connessoA (w.ora w.letture) = true) (ht : u._token.truthy = true)
    (hk : Char.ofNat 36 ∉ u._id.data) :
    (u.voti w).mondo.registro = w.registro ++
      [{ metodo := .GET, url := BASE_URL ++ "/v1/students/" ++ u._id ++ "/grades",
         headers := intestazione ++ [("Z-Auth-Token", u._token)], corpo := none }] ∧
    (u.voti w).utente = u ∧
    (∀ response : Risposta,
      w.rete w.registro.length
        { metodo := .GET, url := BASE_URL ++ "/v1/students/" ++ u._id ++ "/grades",
          headers := intestazione ++ [("Z-Auth-Token", u._token)], corpo := none }
        = .risolta response →
      response.status = 200 →
      (u.voti w).esito = .ok (response.data.campo "grades")) ∧
    (Utente.nuovo "S1234567" password)._id = "1234567" ∧
    Collegamenti.format Collegamenti.voti [(Utente.nuovo "S1234567" password)._id] =
      "https://web.spaggiari.eu/rest/v1/students/1234567/grades" := by
  have hf := format_voti u._id hk
  refine ⟨?_, ?_, ?_, ?_, ?_⟩
  · rcases he : w.rete w.registro.length
        { metodo := .GET, url := BASE_URL ++ "/v1/students/" ++ u._id ++ "/grades",
          headers := intestazione ++ [("Z-Auth-Token", u._token)], corpo := none }
      with r | r
    · by_cases h200 : r.status = 200 <;>
        simp [Utente.voti, Utente.assicura, Utente.connesso, Mondo.adesso, hc,
          Utente.richiesta, Utente._getIntestazione, ht, Mondo.invia, hf, he, h200]
    · simp [Utente.voti, Utente.assicura, Utente.connesso, Mondo.adesso, hc,
        Utente.richiesta, Utente._getIntestazione, ht, Mondo.invia, hf, he]
  · rcases he : w.rete w.registro.length
        { metodo := .GET, url := BASE_URL ++ "/v1/students/" ++ u._id ++ "/grades",
          headers := intestazione ++ [("Z-Auth-Token", u._token)], corpo := none }
      with r | r
    · by_cases h200 : r.status = 200 <;>
        simp [Utente.voti, Utente.assicura, Utente.connesso, Mondo.adesso, hc,
          Utente.richiesta, Utente._getIntestazione, ht, Mondo.invia, hf, he, h200]
    · simp [Utente.voti, Utente.assicura, Utente.connesso, Mondo.adesso, hc,
        Utente.richiesta, Utente._getIntestazione, ht, Mondo.invia, hf, he]
  · intro response he h200
    simp [Utente.voti, Utente.assicura, Utente.connesso, Mondo.adesso, hc,
      Utente.richiesta, Utente._getIntestazione, ht, Mondo.invia, hf, he, h200]
  · have h : rimuoviRuolo "S1234567" = "1234567" := by decide
    simp [Utente.nuovo, h]
  · have h : rimuoviRuolo "S1234567" = "1234567" := by decide
    have h2 : Collegamenti.format Collegamenti.voti ["1234567"] =
        "https://web.spaggiari.eu/rest/v1/students/1234567/grades" := by decide
    simp only [Utente.nuovo, h, h2]

/-- Witness of C14: the connected client of `S1234567` in `mondoBuono`. -/
theorem voti_richiesta_witness :
    utenteConnesso.connessoA (mondoBuono.ora mondoBuono.letture) = true ∧
    (utenteConnesso.voti mondoBuono).mondo.registro =
      [{ metodo := .GET, url := BASE_URL ++ "/v1/students/" ++ "1234567" ++ "/grades",
         headers := intestazione ++ [("Z-Auth-Token", .str "abc")], corpo := none }] ∧
    (utenteConnesso.voti mondoBuono).esito = .ok (rispostaBuona.data.campo "grades") := by
  have hc : utenteConnesso.connessoA (mondoBuono.ora mondoBuono.letture) = true :=
    (connessoA_iff _ _).2 ⟨0, rfl, by simp [mondoBuono]⟩
  have h := voti_richiesta utenteConnesso mondoBuono "pw" hc (by decide) (by decide)
  exact ⟨hc, h.1, h.2.2.1 rispostaBuona rfl rfl⟩

/-- C15: the bare key of a client constructed from `S` or `G` followed by `d` is `d`, the
bare key of a client constructed from a string of digits is that string, and `id` keeps
the identifier given; `S1234567` gives `1234567`. -/
theorem chiave_senza_ruolo (d password : String) :
    (Utente.nuovo ("S" ++ d) password)._id = d ∧
    (Utente.nuovo ("G" ++ d) password)._id = d ∧
    (Utente.nuovo ("S" ++ d) password).id = "S" ++ d ∧
    (Utente.nuovo ("G" ++ d) password).id = "G" ++ d ∧
    ((∀ c ∈ d.data, c.isDigit = true) →
      (Utente.nuovo d password)._id = d ∧ (Utente.nuovo d password).id = d) ∧
    (Utente.nuovo "S1234567" password)._id = "1234567" ∧
    (Utente.nuovo "S1234567" password).id = "S1234567" := by
  refine ⟨?_, ?_, rfl, rfl, ?_, ?_, rfl⟩
  · simp [Utente.nuovo, rimuoviRuolo_S]
  · simp [Utente.nuovo, rimuoviRuolo_G]
  · intro hd
    refine ⟨?_, rfl⟩
    simp only [Utente.nuovo, rimuoviRuolo]
    rcases hdata : d.data with _ | ⟨c, cs⟩
    · rfl
    · have hc : c.isDigit = true := hd c (by rw [hdata]; exact List.mem_cons_self _ _)
      have hS : c ≠ 'S' := by
        intro e; rw [e] at hc; revert hc; decide
      have hG : c ≠ 'G' := by
        intro e; rw [e] at hc; revert hc; decide
      simp [hS, hG]
  · have h : rimuoviRuolo "S1234567" = "1234567" := by decide
    simp [Utente.nuovo, h]

/-- Witness of C15: the bare identifier `1234567`. -/
theorem chiave_senza_ruolo_witness :
    (∀ c ∈ "1234567".data, c.isDigit = true) ∧
    (Utente.nuovo "1234567" "password_esempio")._id = "1234567" ∧
    (Utente.nuovo "1234567" "password_esempio").id = "1234567" := by
  have hd : ∀ c ∈ "1234567".data, c.isDigit = true := by decide
  exact ⟨hd, (chiave_senza_ruolo "1234567" "password_esempio").2.2.2.2.1 hd⟩

/-! ## Validation of dates -/

theorem giorniDelMese_pos (anno : Int) (mese : Nat) :
    28 ≤ giorniDelMese anno mese ∧ giorniDelMese anno mese ≤ 31 := by
  unfold giorniDelMese
  split
  · split <;> omega
  · split <;> omega

/-- A date that the calendar does not have is rejected on every host. -/
theorem validaData_non_valida (host : Host) (data : String) (h : dataValida data = false) :
    validaData host data = .error .FormatoNonValido := by
  unfold dataValida at h
  unfold validaData
  rcases ha : analizzaData data with _ | ⟨year, month, day⟩
  · rfl
  · rw [ha] at h
    simp only [decide_eq_false_iff_not] at h
    have hg := giorniDelMese_pos year month
    simp only [nuovaData]
    by_cases h1 : month < 1 ∨ 12 < month ∨ day < 1 ∨ 31 < day
    · rw [if_pos h1]
    · have h2 : ¬ day ≤ giorniDelMese (year : Int) month := by
        intro hle
        apply h
        omega
      rw [if_neg h1, if_neg h2]
      cases hr : host.rotola
      · simp
      · simp only [if_true, inLocale]
        by_cases hf : 0 ≤ host.fuso
        · simp only [hf, if_true]
          rw [if_pos]
          right; left
          simp
        · simp only [hf, if_false, giornoPrima]
          by_cases hd : (1 : Int) < (day : Int) - (giorniDelMese (year : Int) month : Int)
          · simp only [hd, if_true]
            rw [if_pos]
            right; left
            simp
          · have hm : (0 : Int) < (month : Int) := by omega
            simp only [hd, if_false, hm, if_true, Int.toNat_ofNat]
            rw [if_pos]
            right; right
            omega

/-- On a host whose local time is behind UTC every string is rejected. -/
theorem validaData_fuso_negativo (n : Nat) (rotola : Bool) (data : String) :
    validaData { fuso := -((n : Int) + 1), rotola := rotola } data
      = .error .FormatoNonValido := by
  unfold validaData
  rcases ha : analizzaData data with _ | ⟨year, month, day⟩
  · rfl
  · have hg := giorniDelMese_pos year month
    have hf : ¬ (0 : Int) ≤ -((n : Int) + 1) := by omega
    simp only [nuovaData]
    by_cases h1 : month < 1 ∨ 12 < month ∨ day < 1 ∨ 31 < day
    · rw [if_pos h1]
    · rw [if_neg h1]
      by_cases h2 : day ≤ giorniDelMese (year : Int) month
      · simp only [h2, if_true, inLocale, hf, if_false, giornoPrima]
        by_cases hd : (1 : Int) < (day : Int)
        · simp only [hd, if_true]
          rw [if_pos]
          right; right
          simp
        · simp only [hd, if_false]
          by_cases hm : (0 : Int) < (month : Int) - 1
          · simp only [hm, if_true]
            rw [if_pos]
            right; left
            simp
          · simp only [hm, if_false]
            rw [if_pos]
            left
            simp
      · rw [if_neg h2]
        cases rotola
        · simp
        · simp only [if_true, inLocale, hf, if_false, giornoPrima]
          by_cases hd : (1 : Int) < (day : Int) - (giorniDelMese (year : Int) month : Int)
          · simp only [hd, if_true]
            rw [if_pos]
            right; left
            simp
          · have hm : (0 : Int) < (month : Int) := by omega
            simp only [hd, if_false, hm, if_true, Int.toNat_ofNat]
            rw [if_pos]
            right; right
            omega

/-- On a host whose local time is not behind UTC a date of the calendar is accepted. -/
theorem validaData_valida (host : Host) (data : String) (hf : 0 ≤ host.fuso)
    (h : dataValida data = true) : validaData host data = .ok () := by
  unfold dataValida at h
  unfold validaData
  rcases ha : analizzaData data with _ | ⟨year, month, day⟩
  · rw [ha] at h; simp at h
  · rw [ha] at h
    simp only [decide_eq_true_eq] at h
    have hg := giorniDelMese_pos year month
    have h1 : ¬ (month < 1 ∨ 12 < month ∨ day < 1 ∨ 31 < day) := by omega
    simp only [nuovaData, if_neg h1, h.2.2.2, if_true, inLocale, hf]
    rw [if_neg]
    simp

theorem validaData_casi (host : Host) (data : String) :
    validaData host data = .ok () ∨ validaData host data = .error .FormatoNonValido := by
  unfold validaData
  split
  · right; rfl
  · split
    · right; rfl
    · dsimp only
      split
      · right; rfl
      · left; rfl

theorem validaDate_non_valide (host : Host) (date : List String)
    (h : ∃ d ∈ date, dataValida d = false) :
    validaDate host date = .error .FormatoNonValido := by
  induction date with
  | nil => simp at h
  | cons d ds ih =>
      rcases hv : dataValida d
      · simp [validaDate, validaData_non_valida host d hv]
      · have hds : ∃ x ∈ ds, dataValida x = false := by
          rcases h with ⟨x, hx, hxv⟩
          rcases List.mem_cons.1 hx with e | hm
          · rw [e, hv] at hxv; simp at hxv
          · exact ⟨x, hm, hxv⟩
        simp only [validaDate]
        rcases validaData_casi host d with hk | hk
        · rw [hk]; exact ih hds
        · rw [hk]

theorem validaDate_valide (host : Host) (date : List String) (hf : 0 ≤ host.fuso)
    (h : ∀ d ∈ date, dataValida d = true) : validaDate host date = .ok () := by
  induction date with
  | nil => rfl
  | cons d ds ih =>
      simp only [validaDate, validaData_valida host d hf (h d (List.mem_cons_self _ _))]
      exact ih (fun x hx => h x (List.mem_cons_of_mem _ hx))

/-- C16 at a failing host: wherever the local time is behind UTC, `validaDate` rejects
every string, the real dates included: `2024-02-29`, which names a day of the calendar, is
rejected five hours west of Greenwich and accepted one hour east of it, where `2024-13-45`
and `2024-02-30` are rejected. -/
theorem validaDate_dietro_UTC (n : Nat) (rotola : Bool) (data : String)
    (altre : List String) :
    validaDate { fuso := -((n : Int) + 1), rotola := rotola } (data :: altre)
      = .error .FormatoNonValido ∧
    dataValida "2024-02-29" = true ∧
    validaDate { fuso := -300, rotola := rotola } ["2024-02-29"]
      = .error .FormatoNonValido ∧
    validaDate { fuso := 60, rotola := rotola } ["2024-02-29"] = .ok () ∧
    validaDate { fuso := 60, rotola := rotola } ["2024-13-45"]
      = .error .FormatoNonValido ∧
    validaDate { fuso := 60, rotola := rotola } ["2024-02-30"]
      = .error .FormatoNonValido := by
  refine ⟨?_, by decide, ?_, ?_, ?_, ?_⟩
  · simp only [validaDate, validaData_fuso_negativo]
  · cases rotola <;> rfl
  · cases rotola <;> rfl
  · cases rotola <;> rfl
  · cases rotola <;> rfl

/-! ## Date arguments of the operations -/

theorem dataInizioAnno_registro (w : Mondo) :
    (dataInizioAnno w).2.registro = w.registro := by
  unfold dataInizioAnno annoScolasticoInizio anno Mondo.oggi
  dsimp only
  split <;> rfl

theorem dataFineAnno_registro (w : Mondo) :
    (dataFineAnno w).2.registro = w.registro := by
  unfold dataFineAnno annoScolasticoInizio anno Mondo.oggi
  dsimp only
  split <;> rfl

theorem limitiPanoramica_registro (w : Mondo) (inizio fine : Option String) :
    (limitiPanoramica w inizio fine).2.2.registro = w.registro := by
  unfold limitiPanoramica
  split
  · split
    · simp only [dataFineAnno_registro, dataInizioAnno_registro]
    · split
      · simp only [dataInizioAnno_registro]
      · simp only [dataFineAnno_registro]
  · rfl

theorem limitiPanoramica_inizio (w : Mondo) (s : String) (fine : Option String)
    (hs : s ≠ "") : (limitiPanoramica w (some s) fine).1 = s := by
  unfold limitiPanoramica
  simp only [manca, hs, decide_False, Bool.false_or, Bool.false_and, Option.getD_some]
  split <;> simp

theorem limitiPanoramica_fine (w : Mondo) (s : String) (inizio : Option String)
    (hs : s ≠ "") : (limitiPanoramica w inizio (some s)).2.1 = s := by
  unfold limitiPanoramica
  simp only [manca, hs, decide_False, Bool.or_false, Bool.and_false, Option.getD_some]
  split <;> simp

theorem assicura_connesso (u : Utente) (w : Mondo)
    (hc : u.connessoA (w.ora w.letture) = true) :
    u.assicura w =
      { esito := .ok (), utente := u, mondo := { w with letture := w.letture + 1 } } := by
  simp [Utente.assicura, Utente.connesso, Mondo.adesso, hc]

/-- C17, as stated, fails: `agendaDaA` with an invalid first date and no second one, and
`assenzeDaA` with no first date and an invalid second one, do not look at the date: on the
connected client they issue their request and return. -/
theorem data_non_valida_ignorata :
    dataValida "2024-13-45" = false ∧
    (utenteConnesso.agendaDaA mondoBuono (some "2024-13-45") none).esito
      = .ok JsVal.undefined ∧
    (utenteConnesso.agendaDaA mondoBuono (some "2024-13-45") none).mondo.registro =
      [{ metodo := .GET,
         url := "https://web.spaggiari.eu/rest/v1/students/1234567/agenda/all/19690901/19700630",
         headers := intestazione ++ [("Z-Auth-Token", .str "abc")], corpo := none }] ∧
    (utenteConnesso.assenzeDaA mondoBuono none (some "2024-13-45")).esito
      = .ok JsVal.undefined ∧
    (utenteConnesso.assenzeDaA mondoBuono none (some "2024-13-45")).mondo.registro =
      [{ metodo := .GET,
         url := "https://web.spaggiari.eu/rest/v1/students/1234567/absences/details",
         headers := intestazione ++ [("Z-Auth-Token", .str "abc")], corpo := none }] := by
  have hc : utenteConnesso.connessoA (mondoBuono.ora mondoBuono.letture) = true :=
    (connessoA_iff _ _).2 ⟨0, rfl, by simp [mondoBuono]⟩
  have ha := assicura_connesso utenteConnesso mondoBuono hc
  refine ⟨by decide, ?_, ?_, ?_, ?_⟩
  · simp only [Utente.agendaDaA, manca, Utente.agenda, ha]
    rfl
  · simp only [Utente.agendaDaA, manca, Utente.agenda, ha]
    rfl
  · simp only [Utente.assenzeDaA, manca, Utente.assenze, ha]
    rfl
  · simp only [Utente.assenzeDaA, manca, Utente.assenze, ha]
    rfl

/-- C17, amended: with `s` a supplied (non-empty) string that is not a valid date and `t`
any other supplied string, the calls `assenzeDa(s)`, `lezioniGiorno(s)`,
`assenzeDaA(s, x)` for every `x`, `assenzeDaA(t, s)`, `agendaDaA(s, t)`, `agendaDaA(t, s)`,
`panoramicaDaA(s, x)` and `panoramicaDaA(x, s)` for every `x` throw `FormatoNonValido` and
issue no request, neither login nor data.  (A call of `assenzeDaA` without its first date,
or of `agendaDaA` without one of its two dates, does not look at the dates it was
given.) -/
theorem date_non_valide_respinte (u : Utente) (w : Mondo) (s t : String)
    (hs : s ≠ "") (ht : t ≠ "") (hv : dataValida s = false) :
    ((u.assenzeDa w (some s)).esito = .error .FormatoNonValido ∧
      (u.assenzeDa w (some s)).mondo.registro = w.registro) ∧
    ((u.lezioniGiorno w (some s)).esito = .error .FormatoNonValido ∧
      (u.lezioniGiorno w (some s)).mondo.registro = w.registro) ∧
    (∀ x : Option String,
      (u.assenzeDaA w (some s) x).esito = .error .FormatoNonValido ∧
      (u.assenzeDaA w (some s) x).mondo.registro = w.registro) ∧
    ((u.assenzeDaA w (some t) (some s)).esito = .error .FormatoNonValido ∧
      (u.assenzeDaA w (some t) (some s)).mondo.registro = w.registro) ∧
    ((u.agendaDaA w (some s) (some t)).esito = .error .FormatoNonValido ∧
      (u.agendaDaA w (some s) (some t)).mondo.registro = w.registro) ∧
    ((u.agendaDaA w (some t) (some s)).esito = .error .FormatoNonValido ∧
      (u.agendaDaA w (some t) (some s)).mondo.registro = w.registro) ∧
    (∀ x : Option String,
      (u.panoramicaDaA w (some s) x).esito = .error .FormatoNonValido ∧
      (u.panoramicaDaA w (some s) x).mondo.registro = w.registro) ∧
    (∀ x : Option String,
      (u.panoramicaDaA w x (some s)).esito = .error .FormatoNonValido ∧
      (u.panoramicaDaA w x (some s)).mondo.registro = w.registro) := by
  have hms : manca (some s) = false := by simp [manca, hs]
  have hmt : manca (some t) = false := by simp [manca, ht]
  have h1 : ∀ host, validaDate host [s] = .error .FormatoNonValido :=
    fun host => validaDate_non_valide host [s] ⟨s, by simp, hv⟩
  have h2 : ∀ host (y : String), validaDate host [s, y] = .error .FormatoNonValido :=
    fun host y => validaDate_non_valide host [s, y] ⟨s, by simp, hv⟩
  have h3 : ∀ host (y : String), validaDate host [y, s] = .error .FormatoNonValido :=
    fun host y => validaDate_non_valide host [y, s] ⟨s, by simp, hv⟩
  have hA : (u.assenzeDa w (some s)).esito = .error .FormatoNonValido ∧
      (u.assenzeDa w (some s)).mondo.registro = w.registro := by
    simp [Utente.assenzeDa, hms, h1]
  refine ⟨hA, ?_, ?_, ?_, ?_, ?_, ?_, ?_⟩
  · simp [Utente.lezioniGiorno, hms, h1]
  · intro x
    by_cases hx : manca x = true
    · simp only [Utente.assenzeDaA, hms, hx, if_true]
      exact hA
    · simp [Utente.assenzeDaA, hms, hx, h2]
  · simp [Utente.assenzeDaA, hms, hmt, h3]
  · simp [Utente.agendaDaA, hms, hmt, h2]
  · simp [Utente.agendaDaA, hms, hmt, h3]
  · intro x
    have hi := limitiPanoramica_inizio w s x hs
    have hr := limitiPanoramica_registro w (some s) x
    rcases hl : limitiPanoramica w (some s) x with ⟨i, f, w0⟩
    rw [hl] at hi hr
    simp only at hi hr
    subst hi
    simp [Utente.panoramicaDaA, hl, h2, hr]
  · intro x
    have hf := limitiPanoramica_fine w s x hs
    have hr := limitiPanoramica_registro w x (some s)
    rcases hl : limitiPanoramica w x (some s) with ⟨i, f, w0⟩
    rw [hl] at hf hr
    simp only at hf hr
    subst hf
    simp [Utente.panoramicaDaA, hl, h3, hr]

/-- Witness of C17 amended: the dates of the example file and of the specification on
the connected client. -/
theorem date_non_valide_respinte_witness :
    dataValida "2024-13-45" = false ∧
    (utenteConnesso.assenzeDa mondoBuono (some "2024-13-45")).esito
      = .error .FormatoNonValido ∧
    (utenteConnesso.assenzeDa mondoBuono (some "2024-13-45")).mondo.registro = [] ∧
    (utenteConnesso.agendaDaA mondoBuono (some "2024-02-29") (some "2024-13-45")).esito
      = .error .FormatoNonValido ∧
    (utenteConnesso.panoramicaDaA mondoBuono none (some "2024-13-45")).mondo.registro
      = [] := by
  have h := date_non_valide_respinte utenteConnesso mondoBuono "2024-13-45" "2024-02-29"
    (by decide) (by decide) (by decide)
  exact ⟨by decide, h.1.1, h.1.2, h.2.2.2.2.2.1.1, (h.2.2.2.2.2.2.2 none).2⟩

/-! ## Remote error codes -/

theorem iniziaCon_122_non_120 (errore : String) (h : iniziaCon errore "122" = true) :
    iniziaCon errore "120" = false := by
  unfold iniziaCon at *
  have h1 : "122".data = ['1', '2', '2'] := rfl
  have h2 : "120".data = ['1', '2', '0'] := rfl
  rw [h1] at h
  rw [h2]
  rcases hd : errore.data with _ | ⟨a, _ | ⟨b, _ | ⟨c, r⟩⟩⟩ <;> rw [hd] at h <;>
    simp only [List.isPrefixOf, Bool.and_eq_true, beq_iff_eq, Bool.and_eq_false_imp,
      Bool.false_eq_true, and_false, false_and, implies_true] at h ⊢
  intro _ _
  rw [← h.2.2.1]
  decide

theorem iniziaCon_102_non_130 (errore : String) (h : iniziaCon errore "102" = true) :
    iniziaCon errore "130" = false := by
  unfold iniziaCon at *
  have h1 : "102".data = ['1', '0', '2'] := rfl
  have h2 : "130".data = ['1', '3', '0'] := rfl
  rw [h1] at h
  rw [h2]
  rcases hd : errore.data with _ | ⟨a, _ | ⟨b, _ | ⟨c, r⟩⟩⟩ <;> rw [hd] at h <;>
    simp only [List.isPrefixOf, Bool.and_eq_true, beq_iff_eq, Bool.and_eq_false_imp,
      Bool.false_eq_true, and_false, false_and, implies_true] at h ⊢
  intro _ hb
  rw [← h.2.1] at hb
  exact absurd hb (by decide)

theorem protetta_rifiutata (u : Utente) (w : Mondo) (metodo : Metodo) (url : String)
    (corpo : Option (List (String × JsVal))) (estrai : Corpo → Except Errore JsVal)
    (codici : List (String × Errore)) (response : Risposta)
    (ht : u._token.truthy = true)
    (hr : ∀ r, w.rete w.registro.length r = .rifiutata (some response)) :
    (u.richiestaProtetta w metodo url corpo estrai codici).esito =
      .error (traduci codici response) := by
  simp [Utente.richiestaProtetta, Utente._getIntestazione, ht, Mondo.invia, hr]

/-- C18, as stated, fails: `assenzeDa` on a valid date, its request rejected with the
remote error code 120 under status 400, throws the generic `ErroreHTTP` with that status,
not `FormatoNonValido`. -/
theorem codice120_senza_404 :
    risposta400.data.campo "error" = .str "120:CvvRestApi" ∧
    iniziaCon "120:CvvRestApi" "120" = true ∧
    (utenteConnesso.assenzeDa mondo400 (some "2024-02-29")).esito =
      .error (.ErroreHTTP (.num 400) (.risposta risposta400)) ∧
    (utenteConnesso.assenzeDa mondo400 (some "2024-02-29")).esito ≠
      .error .FormatoNonValido := by
  have hc : utenteConnesso.connessoA (mondo400.ora mondo400.letture) = true :=
    (connessoA_iff _ _).2 ⟨0, rfl, by simp [mondo400]⟩
  have ha := assicura_connesso utenteConnesso mondo400 hc
  have he : (utenteConnesso.assenzeDa mondo400 (some "2024-02-29")).esito =
      .error (.ErroreHTTP (.num 400) (.risposta risposta400)) := by
    simp only [Utente.assenzeDa, manca, ha]
    rfl
  refine ⟨rfl, by decide, he, ?_⟩
  rw [he]
  simp

/-- C18, amended: on a connected client with a token and valid dates, when the data
request of `assenzeDa`, `assenzeDaA` or `agendaDaA` is rejected with status 404 and a
remote error code starting with `120` the call throws `FormatoNonValido`, with `122`
`DataFuoriGamma`; for `leggiNota`, with `130` `ParametroNonValido` and with `102`
`CategoriaNonPresente`.  A rejection with another status, or with status 404 and a body
whose `error` is missing, empty or a string with none of the two codes, throws what
`sollevaErroreHTTP` makes of the response: `ErroreHTTP404` for status 404, `ErroreHTTP`
with the status otherwise. -/
theorem traduzione_errori (u : Utente) (w : Mondo) (response : Risposta)
    (i f tipo : String) (id : Int)
    (hc : u.connessoA (w.ora w.letture) = true) (ht : u._token.truthy = true)
    (hi0 : i ≠ "") (hf0 : f ≠ "")
    (hi : validaData w.host i = .ok ()) (hf : validaData w.host f = .ok ())
    (hr : ∀ k r, w.rete k r = .rifiutata (some response)) :
    (u.assenzeDa w (some i)).esito = .error (traduci codiciDate response) ∧
    (u.assenzeDaA w (some i) (some f)).esito = .error (traduci codiciDate response) ∧
    (u.agendaDaA w (some i) (some f)).esito = .error (traduci codiciDate response) ∧
    (u.leggiNota w tipo id).esito = .error (traduci codiciNota response) ∧
    (∀ e : String, response.status = 404 → response.data.campo "error" = .str e →
      (iniziaCon e "120" = true → traduci codiciDate response = .FormatoNonValido) ∧
      (iniziaCon e "122" = true → traduci codiciDate response = .DataFuoriGamma) ∧
      (iniziaCon e "130" = true → traduci codiciNota response = .ParametroNonValido) ∧
      (iniziaCon e "102" = true → traduci codiciNota response = .CategoriaNonPresente) ∧
      (iniziaCon e "120" = false → iniziaCon e "122" = false →
        traduci codiciDate response = .ErroreHTTP404 (.risposta response)) ∧
      (iniziaCon e "130" = false → iniziaCon e "102" = false →
        traduci codiciNota response = .ErroreHTTP404 (.risposta response))) ∧
    (response.status = 404 → (response.data.campo "error").truthy = false →
      traduci codiciDate response = .ErroreHTTP404 (.risposta response) ∧
      traduci codiciNota response = .ErroreHTTP404 (.risposta response)) ∧
    (response.status ≠ 404 → response.status ≠ 0 →
      traduci codiciDate response = .ErroreHTTP (.num response.status) (.risposta response) ∧
      traduci codiciNota response =
        .ErroreHTTP (.num response.status) (.risposta response)) := by
  have ha := assicura_connesso u w hc
  have hmi : manca (some i) = false := by simp [manca, hi0]
  have hmf : manca (some f) = false := by simp [manca, hf0]
  have hv1 : validaDate w.host [i] = .ok () := by simp [validaDate, hi]
  have hv2 : validaDate w.host [i, f] = .ok () := by simp [validaDate, hi, hf]
  have hp : ∀ metodo url corpo estrai codici,
      (u.richiestaProtetta { w with letture := w.letture + 1 } metodo url corpo estrai
        codici).esito = .error (traduci codici response) :=
    fun metodo url corpo estrai codici =>
      protetta_rifiutata u _ metodo url corpo estrai codici response ht (fun r => hr _ r)
  have h404 : sollevaErroreHTTP (.risposta response) = .ErroreHTTP404 (.risposta response) ∨
      response.status ≠ 404 := by
    by_cases h : response.status = 404
    · left
      simp [sollevaErroreHTTP, ArgErrore.status, ArgErrore.statusCode, JsVal.oppure,
        JsVal.truthy, h]
    · right; exact h
  refine ⟨?_, ?_, ?_, ?_, ?_, ?_, ?_⟩
  · simp only [Utente.assenzeDa, hmi, hv1, ha, Option.getD_some, Bool.false_eq_true,
      if_false]
    exact hp _ _ _ _ _
  · simp only [Utente.assenzeDaA, hmi, hmf, hv2, ha, Option.getD_some, Bool.false_eq_true,
      if_false]
    exact hp _ _ _ _ _
  · simp only [Utente.agendaDaA, hmi, hmf, hv2, ha, Option.getD_some, Bool.or_self,
      Bool.false_eq_true, if_false]
    exact hp _ _ _ _ _
  · simp only [Utente.leggiNota, ha]
    exact hp _ _ _ _ _
  · intro e hs he
    have hs404 : sollevaErroreHTTP (.risposta response) = .ErroreHTTP404 (.risposta response) := by
      rcases h404 with h | h
      · exact h
      · exact absurd hs h
    have hopp : (JsVal.str e).oppure (.str "") = .str e ∨ e = "" := by
      by_cases h0 : e = ""
      · right; exact h0
      · left; simp [JsVal.oppure, JsVal.truthy, h0]
    have hne : ∀ c : String, c.data ≠ [] → iniziaCon e c = true → e ≠ "" := by
      intro c hcne hpre h0
      rw [h0] at hpre
      unfold iniziaCon at hpre
      rcases hcd : c.data with _ | ⟨a, r⟩
      · exact hcne hcd
      · rw [hcd] at hpre
        simp [List.isPrefixOf] at hpre
    have hstr : ∀ codici, e ≠ "" → traduci codici response =
        match codici.find? (fun c => iniziaCon e c.1) with
        | some c => c.2
        | none => sollevaErroreHTTP (.risposta response) := by
      intro codici h0
      simp [traduci, hs, he, JsVal.oppure, JsVal.truthy, h0]
    have hvuoto : ∀ codici : List (String × Errore), (∀ c ∈ codici, c.1.data ≠ []) →
        e = "" → traduci codici response = sollevaErroreHTTP (.risposta response) := by
      intro codici hall h0
      have hnone : codici.find? (fun c => iniziaCon "" c.1) = none := by
        rw [List.find?_eq_none]
        intro c hcm
        have := hall c hcm
        unfold iniziaCon
        rcases hcd : c.1.data with _ | ⟨a, r⟩
        · exact absurd hcd this
        · simp [List.isPrefixOf]
      simp [traduci, hs, he, JsVal.oppure, JsVal.truthy, h0, hnone]
    refine ⟨?_, ?_, ?_, ?_, ?_, ?_⟩
    · intro h
      rw [hstr _ (hne "120" (by decide) h)]
      simp [codiciDate, List.find?, h]
    · intro h
      rw [hstr _ (hne "122" (by decide) h)]
      simp [codiciDate, List.find?, h, iniziaCon_122_non_120 e h]
    · intro h
      rw [hstr _ (hne "130" (by decide) h)]
      simp [codiciNota, List.find?, h]
    · intro h
      rw [hstr _ (hne "102" (by decide) h)]
      simp [codiciNota, List.find?, h, iniziaCon_102_non_130 e h]
    · intro h1 h2
      by_cases h0 : e = ""
      · rw [hvuoto codiciDate (by decide) h0, hs404]
      · rw [hstr _ h0]
        simp [codiciDate, List.find?, h1, h2, hs404]
    · intro h1 h2
      by_cases h0 : e = ""
      · rw [hvuoto codiciNota (by decide) h0, hs404]
      · rw [hstr _ h0]
        simp [codiciNota, List.find?, h1, h2, hs404]
  · intro hs hfalsy
    have hs404 : sollevaErroreHTTP (.risposta response) = .ErroreHTTP404 (.risposta response) := by
      rcases h404 with h | h
      · exact h
      · exact absurd hs h
    have hnone : ∀ codici : List (String × Errore), (∀ c ∈ codici, c.1.data ≠ []) →
        codici.find? (fun c => iniziaCon "" c.1) = none := by
      intro codici hall
      rw [List.find?_eq_none]
      intro c hcm
      have := hall c hcm
      unfold iniziaCon
      rcases hcd : c.1.data with _ | ⟨a, r⟩
      · exact absurd hcd this
      · simp [List.isPrefixOf]
    constructor
    · simp [traduci, hs, JsVal.oppure, hfalsy, hnone codiciDate (by decide), hs404]
    · simp [traduci, hs, JsVal.oppure, hfalsy, hnone codiciNota (by decide), hs404]
  · intro hs h0
    have h4 : ((response.status : Int) = 404) ↔ False := by
      constructor
      · intro h; exact hs (by exact_mod_cast h)
      · intro h; exact h.elim
    constructor <;>
      simp [traduci, hs, sollevaErroreHTTP, ArgErrore.status, ArgErrore.statusCode,
        JsVal.oppure, JsVal.truthy, h0, h4]

/-- Witness of C18 amended: `agendaDaA` on the connected client, its request rejected with
status 404 and the remote error code 122. -/
theorem traduzione_errori_witness :
    utenteConnesso.connessoA (mondo404.ora mondo404.letture) = true ∧
    (utenteConnesso.agendaDaA mondo404 (some "2024-02-29") (some "2024-03-01")).esito
      = .error .DataFuoriGamma := by
  have hc : utenteConnesso.connessoA (mondo404.ora mondo404.letture) = true :=
    (connessoA_iff _ _).2 ⟨0, rfl, by simp [mondo404]⟩
  have h := traduzione_errori utenteConnesso mondo404 risposta404 "2024-02-29" "2024-03-01"
    "NTTE" 1 hc (by decide) (by decide) (by decide) rfl rfl (fun _ _ => rfl)
  have ht := (h.2.2.2.2.1 "122:CvvRestApi" rfl rfl).2.1 (by decide)
  refine ⟨hc, ?_⟩
  rw [h.2.2.1, ht]

/-! ## `sollevaErroreHTTP` and `dati` -/

/-- C19: `sollevaErroreHTTP(response)` always throws (the function of the embedding is
total and its value is the error thrown).  With the status code of the argument taken as
`status`, or `statusCode` when `status` is falsy, it throws `ErroreHTTP404` carrying the
argument exactly when that code is the number 404, and otherwise `ErroreHTTP` carrying the
argument and that code, or `'unknown'` when the argument has no code.  For a response of
axios with a status that is not zero: `ErroreHTTP404` exactly when the status is 404, and
`ErroreHTTP` with that status otherwise. -/
theorem sollevaErroreHTTP_spec (response : ArgErrore) (r : Risposta) :
    (sollevaErroreHTTP response = .ErroreHTTP404 response ↔
      response.status.oppure response.statusCode = .num 404) ∧
    (response.status.oppure response.statusCode ≠ .num 404 →
      (response.status.oppure response.statusCode).truthy = true →
      sollevaErroreHTTP response =
        .ErroreHTTP (response.status.oppure response.statusCode) response) ∧
    ((response.status.oppure response.statusCode).truthy = false →
      sollevaErroreHTTP response = .ErroreHTTP (.str "unknown") response) ∧
    (sollevaErroreHTTP response = .ErroreHTTP404 response ∨
      ∃ codice, sollevaErroreHTTP response = .ErroreHTTP codice response) ∧
    (r.status ≠ 0 →
      (sollevaErroreHTTP (.risposta r) = .ErroreHTTP404 (.risposta r) ↔ r.status = 404) ∧
      (r.status ≠ 404 →
        sollevaErroreHTTP (.risposta r) = .ErroreHTTP (.num r.status) (.risposta r))) ∧
    sollevaErroreHTTP .assente = .ErroreHTTP (.str "unknown") .assente := by
  have hu : (JsVal.str "unknown") ≠ JsVal.num 404 := by decide
  have hvero : ∀ c : JsVal, c.truthy = true → c.oppure (.str "unknown") = c := by
    intro c hc
    unfold JsVal.oppure
    rw [if_pos hc]
  have hfalso : ∀ c : JsVal, c.truthy = false → c.oppure (.str "unknown") = .str "unknown" := by
    intro c hc
    unfold JsVal.oppure
    rw [if_neg (by rw [hc]; decide)]
  refine ⟨?_, ?_, ?_, ?_, ?_, ?_⟩
  · unfold sollevaErroreHTTP
    dsimp only
    generalize response.status.oppure response.statusCode = c
    rcases ht : c.truthy
    · rw [hfalso c ht, if_neg hu]
      constructor
      · intro h; cases h
      · intro h
        rw [h] at ht
        exact absurd ht (by decide)
    · rw [hvero c ht]
      by_cases h4 : c = .num 404
      · rw [if_pos h4]; simp [h4]
      · rw [if_neg h4]; simp [h4]
  · intro h4 ht
    unfold sollevaErroreHTTP
    dsimp only
    rw [hvero _ ht, if_neg h4]
  · intro ht
    unfold sollevaErroreHTTP
    dsimp only
    rw [hfalso _ ht, if_neg hu]
  · unfold sollevaErroreHTTP
    dsimp only
    split
    · left; rfl
    · right; exact ⟨_, rfl⟩
  · intro h0
    have h4 : ((r.status : Int) = 404) ↔ r.status = 404 := by
      constructor
      · intro h; exact_mod_cast h
      · intro h; exact_mod_cast h
    constructor
    · by_cases h : r.status = 404 <;>
        simp [sollevaErroreHTTP, ArgErrore.status, ArgErrore.statusCode, JsVal.oppure,
          JsVal.truthy, h0, h4, h]
    · intro h
      simp [sollevaErroreHTTP, ArgErrore.status, ArgErrore.statusCode, JsVal.oppure,
        JsVal.truthy, h0, h4, h]
  · rfl

/-- Witness of C19: responses of status 404 and 500, and an error object without
status. -/
theorem sollevaErroreHTTP_spec_witness :
    sollevaErroreHTTP (.risposta risposta404) = .ErroreHTTP404 (.risposta risposta404) ∧
    sollevaErroreHTTP (.risposta { status := 500, data := Corpo.vuoto }) =
      .ErroreHTTP (.num 500) (.risposta { status := 500, data := Corpo.vuoto }) ∧
    sollevaErroreHTTP (.errore .undefined .undefined) =
      .ErroreHTTP (.str "unknown") (.errore .undefined .undefined) := by
  refine ⟨?_, ?_, ?_⟩
  · exact ((sollevaErroreHTTP_spec .assente risposta404).2.2.2.2.1 (by decide)).1.2 rfl
  · exact ((sollevaErroreHTTP_spec .assente { status := 500, data := Corpo.vuoto }).2.2.2.2.1
      (by decide)).2 (by decide)
  · exact (sollevaErroreHTTP_spec (.errore .undefined .undefined) risposta404).2.2.1 rfl

/-- C20: the getter `dati` throws `SenzaDati` when `ident`, `firstName` or `lastName` is
missing (falsy) in the cached data, and otherwise returns the record of exactly those
three cached values; on a freshly constructed client it throws. -/
theorem dati_spec (u : Utente) (id password : String) :
    ((u._dati.ident.truthy = false ∨ u._dati.firstName.truthy = false ∨
        u._dati.lastName.truthy = false) →
      u.dati = .error .SenzaDati) ∧
    (u._dati.ident.truthy = true → u._dati.firstName.truthy = true →
      u._dati.lastName.truthy = true →
      u.dati = .ok { ident := u._dati.ident, firstName := u._dati.firstName,
                     lastName := u._dati.lastName }) ∧
    (Utente.nuovo id password).dati = .error .SenzaDati := by
  refine ⟨?_, ?_, ?_⟩
  · rintro (h | h | h) <;> simp [Utente.dati, h]
  · intro h1 h2 h3
    simp [Utente.dati, h1, h2, h3]
  · simp [Utente.dati, Utente.nuovo, Corpo.vuoto, JsVal.truthy]

/-- Witness of C20: the client that holds the data of `rispostaBuona`, and the same client
with its first name removed. -/
theorem dati_spec_witness :
    utenteConnesso.dati =
      .ok { ident := .str "S1234567", firstName := .str "Ada", lastName := .str "Rossi" } ∧
    ({ utenteConnesso with
        _dati := { utenteConnesso._dati with firstName := .undefined } } : Utente).dati
      = .error .SenzaDati := by
  refine ⟨?_, ?_⟩
  · exact (dati_spec utenteConnesso "S1" "pw").2.1 (by decide) (by decide) (by decide)
  · exact (dati_spec _ "S1" "pw").1 (Or.inr (Or.inl (by decide)))

/-! ## Date converters -/

theorem cifra_non_trattino (c : Char) (n : Nat) (h : cifra c = some n) : c ≠ '-' := by
  intro e
  have h0 : cifra '-' = none := by decide
  rw [e, h0] at h
  cases h

theorem isDigit_non_trattino (c : Char) (h : c.isDigit = true) : c ≠ '-' := by
  intro e
  rw [e] at h
  revert h
  decide

theorem analizzaData_forma (data : String) (r : Nat × Nat × Nat)
    (h : analizzaData data = some r) :
    ∃ y1 y2 y3 y4 m1 m2 d1 d2 : Char,
      data.data = [y1, y2, y3, y4, '-', m1, m2, '-', d1, d2] ∧
      y1 ≠ '-' ∧ y2 ≠ '-' ∧ y3 ≠ '-' ∧ y4 ≠ '-' ∧ m1 ≠ '-' ∧ m2 ≠ '-' ∧ d1 ≠ '-' ∧
      d2 ≠ '-' := by
  unfold analizzaData at h
  split at h
  · rename_i y1 y2 y3 y4 t1 m1 m2 t2 d1 d2 hd
    split at h
    · rename_i ht
      split at h
      · rename_i a b c d e f g i ha hb hc hdd he hf hg hi
        refine ⟨y1, y2, y3, y4, m1, m2, d1, d2, ?_, cifra_non_trattino _ _ ha,
          cifra_non_trattino _ _ hb, cifra_non_trattino _ _ hc, cifra_non_trattino _ _ hdd,
          cifra_non_trattino _ _ he, cifra_non_trattino _ _ hf, cifra_non_trattino _ _ hg,
          cifra_non_trattino _ _ hi⟩
        rw [hd, ht.1, ht.2]
      · simp at h
    · simp at h
  · simp at h

/-- C21: the two converters undo each other on their documented inputs: for every valid
date `d` of the shape `YYYY-MM-DD`, `formattaDataDaAPI(formattaDataPerAPI(d))` returns
`d`; for every string `s` of eight digits, `formattaDataDaAPI(s)` returns a string that
`formattaDataPerAPI` turns back into `s`.  Neither call throws. -/
theorem convertitori_inversi (d s : String) :
    (dataValida d = true → formattaDataDaAPI (formattaDataPerAPI d) = .ok d) ∧
    (s.length = 8 → (∀ c ∈ s.data, c.isDigit = true) →
      ∃ t, formattaDataDaAPI s = .ok t ∧ formattaDataPerAPI t = s) := by
  constructor
  · intro hv
    unfold dataValida at hv
    rcases ha : analizzaData d with _ | r
    · rw [ha] at hv; simp at hv
    · obtain ⟨y1, y2, y3, y4, m1, m2, d1, d2, hd, h1, h2, h3, h4, h5, h6, h7, h8⟩ :=
        analizzaData_forma d r ha
      have hp : formattaDataPerAPI d = String.mk [y1, y2, y3, y4, m1, m2, d1, d2] := by
        simp [formattaDataPerAPI, hd, List.filter_cons, h1, h2, h3, h4, h5, h6, h7, h8]
      rw [hp]
      have hd2 : d = String.mk [y1, y2, y3, y4, '-', m1, m2, '-', d1, d2] := by
        apply String.ext
        rw [hd]
      rw [hd2]
      simp [formattaDataDaAPI, String.length]
      apply String.ext
      simp [String.data_append]
  · intro hl hc
    have hlen : s.data.length = 8 := hl
    rcases hs : s.data with _ | ⟨a, _ | ⟨b, _ | ⟨c, _ | ⟨e, _ | ⟨f, _ | ⟨g, _ | ⟨i, _ | ⟨j, _ | ⟨k, r⟩⟩⟩⟩⟩⟩⟩⟩⟩ <;>
      rw [hs] at hlen <;> simp at hlen
    have hmem : ∀ x ∈ [a, b, c, e, f, g, i, j], x ≠ '-' := by
      intro x hx
      exact isDigit_non_trattino x (hc x (by rw [hs]; exact hx))
    have ha := hmem a (by simp)
    have hb := hmem b (by simp)
    have hcc := hmem c (by simp)
    have he := hmem e (by simp)
    have hf := hmem f (by simp)
    have hg := hmem g (by simp)
    have hi := hmem i (by simp)
    have hj := hmem j (by simp)
    have hs2 : s = String.mk [a, b, c, e, f, g, i, j] := by
      apply String.ext
      rw [hs]
    refine ⟨String.mk [a, b, c, e, '-', f, g, '-', i, j], ?_, ?_⟩
    · rw [hs2]
      simp [formattaDataDaAPI, String.length]
      apply String.ext
      simp [String.data_append]
    · rw [hs2]
      simp [formattaDataPerAPI, List.filter_cons, ha, hb, hcc, he, hf, hg, hi, hj]

/-- Witness of C21: the leap day of 2024 in both forms. -/
theorem convertitori_inversi_witness :
    dataValida "2024-02-29" = true ∧
    formattaDataDaAPI (formattaDataPerAPI "2024-02-29") = .ok "2024-02-29" ∧
    (∃ t, formattaDataDaAPI "20240229" = .ok t ∧ formattaDataPerAPI t = "20240229") := by
  have h := convertitori_inversi "2024-02-29" "20240229"
  exact ⟨by decide, h.1 (by decide), h.2 (by decide) (by decide)⟩

/-! ## The end of the school year -/

/-- C22 at a failing input: on every day from September to December (month index 8 to 11)
`dataFineAnnoOOggi()` returns 30 June of the next year, the end of the school year, which
that day comes before.  On 15 October 2024 it returns `20250630` where the documented
value is `20241015`; on 5 March 2025 both are `20250305`. -/
theorem fineAnno_in_autunno (y d : Int) (k : Fin 4) (w : Mondo) :
    (dataFineAnnoOOggi
      { w with locale := fun _ => { fullYear := y, month := 8 + ((k : Nat) : Int), date := d } }).1
      = toString (y + 1) ++ "0630" ∧
    primaDelGiorno { fullYear := y, month := 8 + ((k : Nat) : Int), date := d }
      (fineAnnoScolastico { fullYear := y, month := 8 + ((k : Nat) : Int), date := d }) = true ∧
    (dataFineAnnoOOggi mondoOttobre).1 = "20250630" ∧
    fineAnnoOOggiAtteso { fullYear := 2024, month := 9, date := 15 } = "20241015" ∧
    (dataFineAnnoOOggi mondoMarzo).1 = "20250305" ∧
    fineAnnoOOggiAtteso { fullYear := 2025, month := 2, date := 5 } = "20250305" := by
  have hk : (0 : Int) ≤ ((k : Nat) : Int) := Int.natCast_nonneg _
  refine ⟨?_, ?_, by decide, by decide, by decide, by decide⟩
  · have h2 : ¬ (8 + ((k : Nat) : Int) + 1 < 9) := by omega
    have h3 : ¬ (8 + ((k : Nat) : Int) < 5 ∨ 8 + ((k : Nat) : Int) = 5 ∧ d < 30) := by omega
    simp [dataFineAnnoOOggi, Mondo.oggi, anno, primaDelGiorno, dataFineAnno,
      annoScolasticoInizio, h2, h3]
  · have h2 : ¬ (8 + ((k : Nat) : Int) + 1 < 9) := by omega
    simp only [primaDelGiorno, fineAnnoScolastico, h2, if_false, decide_eq_true_eq]
    left
    omega

/-! ## Uniqueness in the collection -/

theorem mem_delete (s : ListaUtenti) (a y : Rif) :
    y ∈ ListaUtenti.delete s a ↔ y ∈ s ∧ y ≠ a := by
  simp [ListaUtenti.delete]

theorem mem_riduciInterno (h : Heap) (x : Rif) (altra : List Rif) (s : ListaUtenti) (y : Rif) :
    y ∈ ListaUtenti.riduciInterno h x altra s ↔
      y ∈ s ∧ ¬ (y ∈ altra ∧ ListaUtenti.stessoAccount h x y = true) := by
  unfold ListaUtenti.riduciInterno
  induction altra generalizing s with
  | nil => simp
  | cons a as ih =>
      rw [List.foldl_cons, ih]
      by_cases hst : ListaUtenti.stessoAccount h x a = true
      · rw [if_pos hst, mem_delete]
        constructor
        · rintro ⟨⟨hs, hne⟩, hno⟩
          refine ⟨hs, ?_⟩
          rintro ⟨hm, hy⟩
          rcases List.mem_cons.1 hm with e | hm
          · exact hne e
          · exact hno ⟨hm, hy⟩
        · rintro ⟨hs, hno⟩
          refine ⟨⟨hs, ?_⟩, ?_⟩
          · intro e
            apply hno
            rw [e]
            exact ⟨List.mem_cons_self _ _, hst⟩
          · rintro ⟨hm, hy⟩
            exact hno ⟨List.mem_cons_of_mem _ hm, hy⟩
      · rw [if_neg hst]
        constructor
        · rintro ⟨hs, hno⟩
          refine ⟨hs, ?_⟩
          rintro ⟨hm, hy⟩
          rcases List.mem_cons.1 hm with e | hm
          · rw [e] at hy; exact hst hy
          · exact hno ⟨hm, hy⟩
        · rintro ⟨hs, hno⟩
          refine ⟨hs, ?_⟩
          rintro ⟨hm, hy⟩
          exact hno ⟨List.mem_cons_of_mem _ hm, hy⟩

theorem riduciInterno_sublist (h : Heap) (x : Rif) (altra : List Rif) (s : ListaUtenti) :
    (ListaUtenti.riduciInterno h x altra s).Sublist s := by
  unfold ListaUtenti.riduciInterno
  induction altra generalizing s with
  | nil => exact List.Sublist.refl _
  | cons a as ih =>
      rw [List.foldl_cons]
      refine (ih _).trans ?_
      split
      · exact List.filter_sublist _
      · exact List.Sublist.refl _

theorem eraseIdx_manca (s : List Rif) (k : Nat) :
    ∃ z, ∀ y ∈ s, y ∉ s.eraseIdx k → y = z := by
  by_cases hk : k < s.length
  · refine ⟨s[k], ?_⟩
    intro y hy hno
    obtain ⟨i, hi, hget⟩ := List.getElem_of_mem hy
    by_cases hik : i = k
    · subst hik; exact hget.symm
    · exact absurd (List.mem_eraseIdx_iff_getElem.2 ⟨i, hi, hik, hget⟩) hno
  · refine ⟨0, ?_⟩
    intro y hy hno
    rw [List.eraseIdx_of_length_le (by omega)] at hno
    exact absurd hy hno

/-- One turn of the outer loop of `_riduci`. -/
theorem passo_unico (h : Heap) (s : ListaUtenti) (x a b : Rif)
    (ha : a ∈ ListaUtenti.riduciInterno h x
      (ListaUtenti.splice1 s (ListaUtenti.indexOf s x)) s)
    (hb : b ∈ ListaUtenti.riduciInterno h x
      (ListaUtenti.splice1 s (ListaUtenti.indexOf s x)) s)
    (hxa : ListaUtenti.stessoAccount h x a = true)
    (hxb : ListaUtenti.stessoAccount h x b = true) : a = b := by
  rw [mem_riduciInterno] at ha hb
  obtain ⟨z, hz⟩ := eraseIdx_manca s
    (if ListaUtenti.indexOf s x < 0 then max ((s.length : Int) + ListaUtenti.indexOf s x) 0
      else min (ListaUtenti.indexOf s x) (s.length : Int)).toNat
  have hza : a = z := hz a ha.1 (fun hm => ha.2 ⟨hm, hxa⟩)
  have hzb : b = z := hz b hb.1 (fun hm => hb.2 ⟨hm, hxb⟩)
  rw [hza, hzb]

theorem riduci_foldl_sublist (h : Heap) (l : List Rif) (s : ListaUtenti) :
    (l.foldl
      (fun s utente =>
        ListaUtenti.riduciInterno h utente
          (ListaUtenti.splice1 s (ListaUtenti.indexOf s utente)) s) s).Sublist s := by
  induction l generalizing s with
  | nil => exact List.Sublist.refl _
  | cons x xs ih =>
      rw [List.foldl_cons]
      exact (ih _).trans (riduciInterno_sublist h x _ s)

theorem riduci_foldl_unico (h : Heap) (l : List Rif) (s : ListaUtenti) (x a b : Rif)
    (hx : x ∈ l)
    (ha : a ∈ l.foldl
      (fun s utente =>
        ListaUtenti.riduciInterno h utente
          (ListaUtenti.splice1 s (ListaUtenti.indexOf s utente)) s) s)
    (hb : b ∈ l.foldl
      (fun s utente =>
        ListaUtenti.riduciInterno h utente
          (ListaUtenti.splice1 s (ListaUtenti.indexOf s utente)) s) s)
    (hxa : ListaUtenti.stessoAccount h x a = true)
    (hxb : ListaUtenti.stessoAccount h x b = true) : a = b := by
  induction l generalizing s with
  | nil => cases hx
  | cons y ys ih =>
      rw [List.foldl_cons] at ha hb
      rcases List.mem_cons.1 hx with e | hm
      · subst e
        exact passo_unico h s x a b ((riduci_foldl_sublist h ys _).subset ha)
          ((riduci_foldl_sublist h ys _).subset hb) hxa hxb
      · exact ih _ hm ha hb

theorem stessoAccount_refl (h : Heap) (a : Rif) : ListaUtenti.stessoAccount h a a = true := by
  simp [ListaUtenti.stessoAccount]

theorem stessoAccount_iff (h : Heap) (a b : Rif) :
    ListaUtenti.stessoAccount h a b = true ↔
      (h a)._id = (h b)._id ∧ (h a).password = (h b).password := by
  simp [ListaUtenti.stessoAccount]

theorem riduci_unico (h : Heap) (s : ListaUtenti) (hs : s.Nodup) :
    (ListaUtenti._riduci h s).Nodup ∧
    ∀ a ∈ ListaUtenti._riduci h s, ∀ b ∈ ListaUtenti._riduci h s,
      ListaUtenti.stessoAccount h a b = true → a = b := by
  unfold ListaUtenti._riduci
  refine ⟨(riduci_foldl_sublist h s s).nodup hs, ?_⟩
  intro a ha b hb hab
  exact riduci_foldl_unico h s s a a b ((riduci_foldl_sublist h s s).subset ha) ha hb
    (stessoAccount_refl h a) hab

theorem add_nodup (s : ListaUtenti) (r : Rif) (hs : s.Nodup) :
    (ListaUtenti.add s r).Nodup := by
  unfold ListaUtenti.add
  split
  · exact hs
  · rename_i hr
    rw [List.nodup_append]
    refine ⟨hs, List.nodup_singleton r, ?_⟩
    intro a ha hb
    rw [List.mem_singleton] at hb
    subst hb
    exact hr ha

theorem costruzione_nodup (utenti : List Elemento) (s : ListaUtenti) (hs : s.Nodup) :
    (utenti.foldl
      (fun s e =>
        match e with
        | .utente r => ListaUtenti.add s r
        | .altro => s) s).Nodup := by
  induction utenti generalizing s with
  | nil => exact hs
  | cons e es ih =>
      rw [List.foldl_cons]
      apply ih
      cases e with
      | utente r => exact add_nodup s r hs
      | altro => exact hs

theorem nuova_unica (h : Heap) (utenti : List Elemento) :
    (ListaUtenti.nuova h utenti).Nodup ∧
    ∀ a ∈ ListaUtenti.nuova h utenti, ∀ b ∈ ListaUtenti.nuova h utenti,
      ListaUtenti.stessoAccount h a b = true → a = b := by
  unfold ListaUtenti.nuova
  exact riduci_unico h _ (costruzione_nodup utenti [] List.nodup_nil)

theorem aggiungi_unica (h : Heap) (l : ListaUtenti) (u : Rif)
    (hl : l.Nodup ∧ ∀ a ∈ l, ∀ b ∈ l, ListaUtenti.stessoAccount h a b = true → a = b) :
    (ListaUtenti.aggiungi h l u).2.Nodup ∧
    ∀ a ∈ (ListaUtenti.aggiungi h l u).2, ∀ b ∈ (ListaUtenti.aggiungi h l u).2,
      ListaUtenti.stessoAccount h a b = true → a = b := by
  unfold ListaUtenti.aggiungi
  by_cases hany : l.any (fun x => ListaUtenti.stessoAccount h x u) = true
  · rw [if_pos hany]
    exact hl
  · rw [if_neg hany]
    have hno : ∀ x ∈ l, ListaUtenti.stessoAccount h x u = false := by
      intro x hx
      by_contra hc
      apply hany
      rw [List.any_eq_true]
      exact ⟨x, hx, by simpa using hc⟩
    have hu : u ∉ l := by
      intro hm
      have := hno u hm
      rw [stessoAccount_refl] at this
      cases this
    have hadd : ListaUtenti.add l u = l ++ [u] := by
      simp [ListaUtenti.add, hu]
    refine ⟨add_nodup l u hl.1, ?_⟩
    simp only [hadd]
    intro a ha b hb hab
    rcases List.mem_append.1 ha with ha1 | ha1 <;>
      rcases List.mem_append.1 hb with hb1 | hb1
    · exact hl.2 a ha1 b hb1 hab
    · rw [List.mem_singleton] at hb1
      rw [hb1, hno a ha1] at hab
      cases hab
    · rw [List.mem_singleton] at ha1
      have hsym : ListaUtenti.stessoAccount h b a = true := by
        rw [stessoAccount_iff] at hab ⊢
        exact ⟨hab.1.symm, hab.2.symm⟩
      rw [ha1, hno b hb1] at hsym
      cases hsym
    · rw [List.mem_singleton] at ha1 hb1
      rw [ha1, hb1]

/-- C23: every collection obtained by the constructor from any iterable, followed by any
calls of `aggiungi` and `filtra`, holds each object once and no two distinct members with
the same bare key and the same password. -/
theorem collezione_unica (h : Heap) (l : ListaUtenti) (hl : Ottenibile h l) :
    l.Nodup ∧
    ∀ a ∈ l, ∀ b ∈ l,
      (h a)._id = (h b)._id → (h a).password = (h b).password → a = b := by
  have key : l.Nodup ∧
      ∀ a ∈ l, ∀ b ∈ l, ListaUtenti.stessoAccount h a b = true → a = b := by
    induction hl with
    | nuova utenti => exact nuova_unica h utenti
    | aggiungi l u _ ih => exact aggiungi_unica h l u ih
    | filtra l condizione _ _ => exact nuova_unica h _
  refine ⟨key.1, ?_⟩
  intro a ha b hb hid hpw
  exact key.2 a ha b hb ((stessoAccount_iff h a b).2 ⟨hid, hpw⟩)

/-- Witness of C23: the collection made from the three objects of `heapEsempio`, then
`aggiungi` of the first object and `filtra` with a condition that keeps everything. -/
theorem collezione_unica_witness :
    Ottenibile heapEsempio
      (ListaUtenti.filtra heapEsempio
        (ListaUtenti.aggiungi heapEsempio
          (ListaUtenti.nuova heapEsempio [.utente 0, .utente 1, .utente 2]) 0).2
        (fun _ => true)) ∧
    ListaUtenti.filtra heapEsempio
        (ListaUtenti.aggiungi heapEsempio
          (ListaUtenti.nuova heapEsempio [.utente 0, .utente 1, .utente 2]) 0).2
        (fun _ => true) = [2, 0] ∧
    (∀ a ∈ ([2, 0] : ListaUtenti), ∀ b ∈ ([2, 0] : ListaUtenti),
      (heapEsempio a)._id = (heapEsempio b)._id →
      (heapEsempio a).password = (heapEsempio b).password → a = b) := by
  have ho : Ottenibile heapEsempio
      (ListaUtenti.filtra heapEsempio
        (ListaUtenti.aggiungi heapEsempio
          (ListaUtenti.nuova heapEsempio [.utente 0, .utente 1, .utente 2]) 0).2
        (fun _ => true)) :=
    Ottenibile.filtra _ _ (Ottenibile.aggiungi _ _ (Ottenibile.nuova _))
  have he : ListaUtenti.filtra heapEsempio
        (ListaUtenti.aggiungi heapEsempio
          (ListaUtenti.nuova heapEsempio [.utente 0, .utente 1, .utente 2]) 0).2
        (fun _ => true) = [2, 0] := by decide
  have h := collezione_unica heapEsempio _ ho
  rw [he] at h
  exact ⟨ho, he, h.2⟩

end Classeviva
